import Mathlib

/-!
# Lawbook: credential store, session store and request handlers

A shallow embedding of the Go packages `lawbook/internal/models` and
`lawbook/cmd/web`.  The MySQL tables are explicit state, every round trip to
the driver takes the driver failure (if any) of that round trip as an input,
and Go's `(value, error)` results are pairs whose second component is an
`Option GoError` (`none` is Go's `nil`).
-/

namespace Lawbook

/-! ## Go error values -/

/-- The `error` values that flow through the program: the five sentinels of
`internal/models/errors.go`, the sentinels of `database/sql` and `bcrypt` that
the code tests for, the `*mysql.MySQLError` of the driver, any other error,
and an error wrapping another one. -/
inductive GoError where
  | ErrNoRecord
  | ErrInvalidCredentials
  | ErrDuplicateEmail
  | ErrInactiveAccount
  | ErrExpiredSession
  | sqlErrNoRows
  | ErrMismatchedHashAndPassword
  | MySQLError (Number : Nat) (Message : String)
  | other (text : String)
  | wrap (text : String) (inner : GoError)
  deriving DecidableEq, Repr

/-- Go `errors.Is(err, target)`: some error of the chain of `err` equals `target`. -/
def errorsIs : GoError → GoError → Bool
  | .wrap text inner, target =>
      decide (GoError.wrap text inner = target) || errorsIs inner target
  | err, target => decide (err = target)

/-- Go `errors.As(err, &mysqlErr)` for `*mysql.MySQLError`: the first driver error
of the chain, as its `Number` and `Message`. -/
def errorsAsMySQLError : GoError → Option (Nat × String)
  | .MySQLError number message => some (number, message)
  | .wrap _ inner => errorsAsMySQLError inner
  | _ => none

/-- Whether `sub` is a prefix of `s`. -/
def hasPrefix : List Char → List Char → Bool
  | _, [] => true
  | [], _ :: _ => false
  | c :: s, d :: sub => c == d && hasPrefix s sub

/-- Whether `sub` occurs in `s`. -/
def containsChars : List Char → List Char → Bool
  | [], sub => hasPrefix [] sub
  | c :: s, sub => hasPrefix (c :: s) sub || containsChars s sub

/-- Go `strings.Contains(s, substr)`. -/
def stringsContains (s substr : String) : Bool :=
  containsChars s.data substr.data

/-! ## bcrypt -/

/-- The hashing of `golang.org/x/crypto/bcrypt`, which is not part of the
repository, as a parameter: `newFromPassword` is the salted hashing
`GenerateFromPassword` performs on a password it accepts, and
`CompareHashAndPassword` returns `none` for Go's `nil`. -/
structure Bcrypt where
  newFromPassword : String → Nat → Except GoError (List Nat)
  CompareHashAndPassword : List Nat → String → Option GoError

/-- Go `bcrypt.ErrPasswordTooLong`. -/
def ErrPasswordTooLong : GoError := .other "bcrypt: password length exceeds 72 bytes"

/-- Go `bcrypt.GenerateFromPassword(password, cost)`: the library refuses a
password of more than 72 bytes (`len(password) > 72`) before it hashes
anything. -/
def Bcrypt.GenerateFromPassword (bc : Bcrypt) (password : String) (cost : Nat) :
    Except GoError (List Nat) :=
  if 72 < password.utf8ByteSize then .error ErrPasswordTooLong
  else bc.newFromPassword password cost

/-! ## Data model (`internal/models`) -/

/-- Go `type UserRole string`. -/
abbrev UserRole := String

def RoleStudent : UserRole := "student"
def RoleLawyer : UserRole := "lawyer"
def RoleRecruiter : UserRole := "recruiter"

/-- Go `type User struct`; times are instants in nanoseconds. -/
structure User where
  ID : Int
  Name : String
  Email : String
  HashedPassword : List Nat
  Role : UserRole
  CreatedAt : Int
  UpdatedAt : Int
  IsActive : Bool
  EmailVerified : Bool
  deriving DecidableEq, Repr

/-- Go `type Session struct`. -/
structure Session where
  Token : String
  UserID : Int
  Expiry : Int
  deriving DecidableEq, Repr

/-- Modelled from the spec: the persisted schema
`users(id, name, email UNIQUE, hashed_password, role, created_at, updated_at,
is_active, email_verified)` and `sessions(token UNIQUE, user_id, expiry)`,
whose DDL is not among the sources.  `autoIncrement` is the next value of
`users.id`, `emailKey` the name of the unique key on `users.email` as MySQL
prints it in a duplicate-entry message, `clock` the server's `UTC_TIMESTAMP()`.
A row is created active and with its email not yet verified (deactivation and
verification are later mutations). -/
structure Database where
  users : List User
  sessions : List Session
  autoIncrement : Int
  emailKey : String
  clock : Int
  deriving DecidableEq, Repr

/-- The invariants the storage layer enforces: the auto-increment counter is
ahead of every stored user ID, no two users share an email, no two sessions
share a token. -/
def Database.WellFormed (db : Database) : Prop :=
  (∀ u ∈ db.users, u.ID < db.autoIncrement) ∧
  (db.users.map (fun u => u.Email)).Nodup ∧
  (db.sessions.map (fun s => s.Token)).Nodup

/-- The message of MySQL error 1062 for the unique key of `users.email`. -/
def duplicateEntryMessage (email key : String) : String :=
  "Duplicate entry '" ++ email ++ "' for key '" ++ key ++ "'"

/-- The statement `INSERT INTO users (name, email, hashed_password, role)
VALUES (?, ?, ?, ?)`: the driver failure of the round trip if there is one,
error 1062 if a row already has the email (InnoDB has by then consumed an
auto-increment value), else the new row is stored under the next ID, which
`result.LastInsertId()` then reports. -/
def Database.insertUser (db : Database) (fault : Option GoError)
    (name email : String) (hashedPassword : List Nat) (role : UserRole) :
    Except GoError Int × Database :=
  match fault with
  | some err => (.error err, db)
  | none =>
    if db.users.any (fun u => u.Email == email) then
      (.error (.MySQLError 1062 (duplicateEntryMessage email db.emailKey)),
        { db with autoIncrement := db.autoIncrement + 1 })
    else
      (.ok db.autoIncrement,
        { db with
          users := db.users ++
            [{ ID := db.autoIncrement, Name := name, Email := email,
               HashedPassword := hashedPassword, Role := role,
               CreatedAt := db.clock, UpdatedAt := db.clock,
               IsActive := true, EmailVerified := false }]
          autoIncrement := db.autoIncrement + 1 })

/-- The query `SELECT ... FROM users WHERE email = ?` followed by `Scan`:
`sql.ErrNoRows` when no row matches. -/
def Database.userByEmail (db : Database) (fault : Option GoError) (email : String) :
    Except GoError User :=
  match fault with
  | some err => .error err
  | none =>
    match db.users.find? (fun u => u.Email == email) with
    | none => .error .sqlErrNoRows
    | some u => .ok u

/-- The query `SELECT ... FROM users WHERE id = ?` followed by `Scan`. -/
def Database.userByID (db : Database) (fault : Option GoError) (id : Int) :
    Except GoError User :=
  match fault with
  | some err => .error err
  | none =>
    match db.users.find? (fun u => u.ID == id) with
    | none => .error .sqlErrNoRows
    | some u => .ok u

/-- The query `SELECT user_id, expiry FROM sessions WHERE token = ?` followed
by `Scan`. -/
def Database.sessionByToken (db : Database) (fault : Option GoError) (token : String) :
    Except GoError Session :=
  match fault with
  | some err => .error err
  | none =>
    match db.sessions.find? (fun s => s.Token == token) with
    | none => .error .sqlErrNoRows
    | some s => .ok s

/-! ## `UserModel` -/

/-- Go `func (m *UserModel) Insert(name, email, password string, role UserRole) (int, error)`.
`execFault` is the driver failure of `m.DB.Exec`, `lastIDFault` the failure of
`result.LastInsertId()`. -/
def UserModel.Insert (bc : Bcrypt) (db : Database) (execFault lastIDFault : Option GoError)
    (name email password : String) (role : UserRole) : (Int × Option GoError) × Database :=
  match bc.GenerateFromPassword password 12 with
  | .error err => ((0, some err), db)
  | .ok hashedPassword =>
    match db.insertUser execFault name email hashedPassword role with
    | (.error err, db1) =>
      match errorsAsMySQLError err with
      | some (number, message) =>
        if number == 1062 && stringsContains message "email" then
          ((0, some .ErrDuplicateEmail), db1)
        else ((0, some err), db1)
      | none => ((0, some err), db1)
    | (.ok id, db1) =>
      match lastIDFault with
      | some err => ((0, some err), db1)
      | none => ((id, none), db1)

/-- Go `func (m *UserModel) Authenticate(email, password string) (int, error)`. -/
def UserModel.Authenticate (bc : Bcrypt) (db : Database) (fault : Option GoError)
    (email password : String) : Int × Option GoError :=
  match db.userByEmail fault email with
  | .error err =>
    if errorsIs err .sqlErrNoRows then (0, some .ErrInvalidCredentials)
    else (0, some err)
  | .ok row =>
    if !row.IsActive then (0, some .ErrInactiveAccount)
    else
      match bc.CompareHashAndPassword row.HashedPassword password with
      | some err =>
        if errorsIs err .ErrMismatchedHashAndPassword then (0, some .ErrInvalidCredentials)
        else (0, some err)
      | none => (row.ID, none)

/-- Go `func (m *UserModel) Get(id int) (*User, error)`: exactly one of the
pointer and the error is nil.  The statement does not select
`hashed_password`, so that field of the result keeps Go's zero value. -/
def UserModel.Get (db : Database) (fault : Option GoError) (id : Int) :
    Except GoError User :=
  match db.userByID fault id with
  | .error err =>
    if errorsIs err .sqlErrNoRows then .error .ErrNoRecord
    else .error err
  | .ok row => .ok { row with HashedPassword := [] }

/-- Go `func (m *UserModel) Exists(id int) (bool, error)`. -/
def UserModel.Exists (db : Database) (fault : Option GoError) (id : Int) :
    Bool × Option GoError :=
  match fault with
  | some err => (false, some err)
  | none => (db.users.any (fun u => u.ID == id), none)

/-! ## Session tokens (`internal/models/sessions.go`) -/

/-- The alphabet of `base32.StdEncoding`. -/
def encodeStd : String := "ABCDEFGHIJKLMNOPQRSTUVWXYZ234567"

/-- The character of a five-bit group. -/
def base32Char (q : Nat) : Char :=
  encodeStd.data.getD q 'A'

/-- Go `base32.StdEncoding.WithPadding(base32.NoPadding).EncodeToString(b)`, as
the list of its characters: each block of five bytes gives eight five-bit
groups, most significant bits first; a shorter last block is completed with
zero bits and gives no padding character. -/
def base32Encode : List Nat → List Char
  | s0 :: s1 :: s2 :: s3 :: s4 :: rest =>
    [base32Char (s0 / 8), base32Char (s0 % 8 * 4 + s1 / 64), base32Char (s1 / 2 % 32),
     base32Char (s1 % 2 * 16 + s2 / 16), base32Char (s2 % 16 * 2 + s3 / 128),
     base32Char (s3 / 4 % 32), base32Char (s3 % 4 * 8 + s4 / 32), base32Char (s4 % 32)]
      ++ base32Encode rest
  | [s0, s1, s2, s3] =>
    [base32Char (s0 / 8), base32Char (s0 % 8 * 4 + s1 / 64), base32Char (s1 / 2 % 32),
     base32Char (s1 % 2 * 16 + s2 / 16), base32Char (s2 % 16 * 2 + s3 / 128),
     base32Char (s3 / 4 % 32), base32Char (s3 % 4 * 8)]
  | [s0, s1, s2] =>
    [base32Char (s0 / 8), base32Char (s0 % 8 * 4 + s1 / 64), base32Char (s1 / 2 % 32),
     base32Char (s1 % 2 * 16 + s2 / 16), base32Char (s2 % 16 * 2)]
  | [s0, s1] =>
    [base32Char (s0 / 8), base32Char (s0 % 8 * 4 + s1 / 64), base32Char (s1 / 2 % 32),
     base32Char (s1 % 2 * 16)]
  | [s0] => [base32Char (s0 / 8), base32Char (s0 % 8 * 4)]
  | [] => []

/-- The source `crypto/rand` reads from: whether a read fails, and otherwise
the byte (taken modulo 256) it delivers at each position. -/
structure RandSource where
  failure : Option GoError
  byte : Nat → Nat

/-- Go `rand.Read(b)` on a slice of `len` bytes: it fills the whole slice or
returns an error. -/
def randRead (rand : RandSource) (len : Nat) : Except GoError (List Nat) :=
  match rand.failure with
  | some err => .error err
  | none => .ok ((List.range len).map (fun i => rand.byte i % 256))

/-- Go `func generateSessionToken() (string, error)`: `b := make([]byte, 32)`,
`rand.Read(b)`, then the unpadded base32 encoding of `b`. -/
def generateSessionToken (rand : RandSource) : String × Option GoError :=
  match randRead rand 32 with
  | .error err => ("", some err)
  | .ok b => (String.mk (base32Encode b), none)

/-! ## `SessionModel` -/

/-- Go `12 * time.Hour` in nanoseconds. -/
def sessionLifetime : Int := 12 * 3600 * 1000000000

/-- Go `func (m *SessionModel) Insert(userID int) (string, error)`.  `rand` is
the random source `generateSessionToken()` reads, `now` the value of
`time.Now()`, `execFault` the driver failure of `m.DB.Exec`. -/
def SessionModel.Insert (db : Database) (rand : RandSource) (now : Int)
    (execFault : Option GoError) (userID : Int) : (String × Option GoError) × Database :=
  match generateSessionToken rand with
  | (_, some err) => (("", some err), db)
  | (token, none) =>
    match execFault with
    | some err => (("", some err), db)
    | none =>
      if db.sessions.any (fun s => s.Token == token) then
        (("", some (.MySQLError 1062 (duplicateEntryMessage token "sessions.token"))), db)
      else
        ((token, none),
          { db with sessions := db.sessions ++
              [{ Token := token, UserID := userID, Expiry := now + sessionLifetime }] })

/-- Go `func (m *SessionModel) Get(token string) (int, error)`; `now` is the
value of `time.Now()`, and `time.Now().After(expiry)` is `expiry < now`. -/
def SessionModel.Get (db : Database) (fault : Option GoError) (now : Int) (token : String) :
    Int × Option GoError :=
  match db.sessionByToken fault token with
  | .error err =>
    if err = .sqlErrNoRows then (0, some .ErrNoRecord)
    else (0, some err)
  | .ok row =>
    if now > row.Expiry then (0, some .ErrExpiredSession)
    else (row.UserID, none)

/-! ## HTTP plumbing (`net/http`) -/

/-- The state of an `http.ResponseWriter`: the header map, the status code
once `WriteHeader` has been called, and the body written so far. -/
structure ResponseWriter where
  header : List (String × String)
  status : Option Nat
  body : String
  deriving DecidableEq, Repr

/-- Go `Header.Set`. -/
def headerSet (h : List (String × String)) (key value : String) : List (String × String) :=
  h.filter (fun kv => kv.1 != key) ++ [(key, value)]

/-- Go `Header.Add`. -/
def headerAdd (h : List (String × String)) (key value : String) : List (String × String) :=
  h ++ [(key, value)]

/-- Go `Header.Del`. -/
def headerDel (h : List (String × String)) (key : String) : List (String × String) :=
  h.filter (fun kv => kv.1 != key)

/-- Go `w.WriteHeader(code)`: only the first call sets the status. -/
def ResponseWriter.WriteHeader (w : ResponseWriter) (code : Nat) : ResponseWriter :=
  match w.status with
  | some _ => w
  | none => { w with status := some code }

/-- Go `w.Write`: an implicit `WriteHeader(200)` if the status is still unset. -/
def ResponseWriter.Write (w : ResponseWriter) (text : String) : ResponseWriter :=
  { w.WriteHeader 200 with body := (w.WriteHeader 200).body ++ text }

/-- Go `http.StatusText` on the codes the program uses. -/
def StatusText (code : Nat) : String :=
  if code = 303 then "See Other"
  else if code = 400 then "Bad Request"
  else if code = 404 then "Not Found"
  else if code = 422 then "Unprocessable Entity"
  else if code = 500 then "Internal Server Error"
  else ""

/-- Go `http.Error(w, error, code)`. -/
def httpError (w : ResponseWriter) (error : String) (code : Nat) : ResponseWriter :=
  let h := headerDel w.header "Content-Length"
  let h := headerSet h "Content-Type" "text/plain; charset=utf-8"
  let h := headerSet h "X-Content-Type-Options" "nosniff"
  ({ w with header := h }.WriteHeader code).Write (error ++ "\n")

/-- Go `http.Redirect(w, r, url, code)` for the targets the program uses, all of
them clean absolute ASCII paths, which `Redirect` leaves as they are. -/
def httpRedirect (w : ResponseWriter) (method url : String) (code : Nat) : ResponseWriter :=
  let hadCT := (w.header.lookup "Content-Type").isSome
  let h := headerSet w.header "Location" url
  let h := if !hadCT && (method == "GET" || method == "HEAD") then
      headerSet h "Content-Type" "text/html; charset=utf-8" else h
  let w1 := { w with header := h }.WriteHeader code
  if !hadCT && method == "GET" then
    w1.Write ("<a href=\"" ++ url ++ "\">" ++ StatusText code ++ "</a>.\n" ++ "\n")
  else w1

/-- The parts of `*http.Request` the program reads: `ParseForm`'s result and
the first value of each key of `PostForm`, the value stored in the context
under `isAuthenticatedContextKey` (if any), and `nosurf.Token(req)`. -/
structure Request where
  Method : String
  Path : String
  RemoteAddr : String
  Proto : String
  RequestURI : String
  parseFormErr : Option GoError
  PostForm : List (String × String)
  isAuthenticatedContext : Option Bool
  csrfToken : String
  deriving DecidableEq, Repr

/-! ## Session manager (`scs`) -/

/-- A value stored in the session (`interface{}`): the program stores ints
and strings. -/
inductive SessionValue where
  | int (n : Int)
  | str (s : String)
  deriving DecidableEq, Repr

/-- The session data `LoadAndSave` put in the request context.  The random
token is identified by `tokenGeneration`, the number of rotations since the
session was loaded. -/
structure SessionData where
  tokenGeneration : Nat
  values : List (String × SessionValue)
  deriving DecidableEq, Repr

/-- Go `sessionManager.Put(ctx, key, val)`. -/
def SessionData.Put (sd : SessionData) (key : String) (val : SessionValue) : SessionData :=
  { sd with values := sd.values.filter (fun kv => kv.1 != key) ++ [(key, val)] }

/-- Go `sessionManager.Remove(ctx, key)`. -/
def SessionData.Remove (sd : SessionData) (key : String) : SessionData :=
  { sd with values := sd.values.filter (fun kv => kv.1 != key) }

/-- Go `sessionManager.GetInt(ctx, key)`: zero unless an int is stored. -/
def SessionData.GetInt (sd : SessionData) (key : String) : Int :=
  match sd.values.lookup key with
  | some (.int n) => n
  | _ => 0

/-- Go `sessionManager.PopString(ctx, key)`: the key is deleted, and the empty
string is returned unless a string was stored. -/
def SessionData.PopString (sd : SessionData) (key : String) : String × SessionData :=
  match sd.values.lookup key with
  | some (.str s) => (s, sd.Remove key)
  | some (.int _) => ("", sd.Remove key)
  | none => ("", sd)

/-- Go `sessionManager.RenewToken(ctx)` when it succeeds: a new token, the data
retained. -/
def SessionData.RenewToken (sd : SessionData) : SessionData :=
  { sd with tokenGeneration := sd.tokenGeneration + 1 }

/-! ## Form validation (`internal/validator`) -/

/-- Modelled from the spec: the static rules of package `internal/validator`,
whose source is missing: `NotBlank` (non-blank), `Matches` against `EmailRX`
(email pattern) and `MinChars` (length at least `n`).  The tests themselves
are parameters. -/
structure validator.Rules where
  NotBlank : String → Bool
  MatchesEmailRX : String → Bool
  MinChars : String → Nat → Bool

/-- Modelled from the spec: `validator.Validator`, whose source is missing,
holds the field-level messages (one per field) and the non-field messages of a
form. -/
structure validator.Validator where
  NonFieldErrors : List String
  FieldErrors : List (String × String)
  deriving DecidableEq, Repr

/-- Modelled from the spec: a form is valid when it carries no message. -/
def validator.Validator.Valid (v : validator.Validator) : Bool :=
  v.FieldErrors.isEmpty && v.NonFieldErrors.isEmpty

/-- Modelled from the spec: records a field-level message, keeping the first
message of a field. -/
def validator.Validator.AddFieldErrors (v : validator.Validator) (key message : String) :
    validator.Validator :=
  if (v.FieldErrors.lookup key).isSome then v
  else { v with FieldErrors := v.FieldErrors ++ [(key, message)] }

/-- Modelled from the spec: records a non-field message. -/
def validator.Validator.AddNonFieldError (v : validator.Validator) (message : String) :
    validator.Validator :=
  { v with NonFieldErrors := v.NonFieldErrors ++ [message] }

/-- Modelled from the spec: records the message when the check failed. -/
def validator.Validator.CheckField (v : validator.Validator) (ok : Bool)
    (key message : String) : validator.Validator :=
  if !ok then v.AddFieldErrors key message else v

/-! ## The application (`cmd/web`) -/

/-- Go `type userSignupForm struct`. -/
structure userSignupForm where
  Name : String
  Email : String
  Password : String
  Role : UserRole
  Validator : validator.Validator
  deriving DecidableEq, Repr

/-- Go `type userLoginForm struct`. -/
structure userLoginForm where
  Email : String
  Password : String
  Validator : validator.Validator
  deriving DecidableEq, Repr

/-- The values `templateData.Form` (an `interface{}`) takes. -/
inductive FormValue where
  | none
  | signup (form : userSignupForm)
  | login (form : userLoginForm)
  deriving DecidableEq, Repr

/-- Go `type templateData struct`. -/
structure templateData where
  CurrentYear : Int
  Flash : String
  Form : FormValue
  IsAuthenticated : Bool
  CSRFToken : String
  User : Option User
  deriving DecidableEq, Repr

/-- A parsed template set: `ts.ExecuteTemplate(buf, "base", data)`. -/
abbrev Template := templateData → Except GoError String

/-- What is fixed while a request is served: the template cache of
`application`, and the two packages whose code is not among the sources. -/
structure application where
  tempCache : String → Option Template
  bcrypt : Bcrypt
  rules : validator.Rules

/-- A call to the models or to the session manager, recorded in the order of
execution.  `Entered` records that the handler a middleware returned has
started to serve the request; it is kept for the middleware that never call
the models: the three of the chain `standard`, the session and CSRF handlers
and `requireAuthentication`. -/
inductive Call where
  | Entered (middleware : String)
  | UsersInsert (name email : String) (role : UserRole)
  | UsersAuthenticate (email : String)
  | UsersGet (id : Int)
  | UsersExists (id : Int)
  | RenewToken (result : Option GoError)
  | Put (key : String) (val : SessionValue)
  | Remove (key : String)
  | PopString (key : String)
  deriving DecidableEq, Repr

/-- Everything a handler can read or change while it serves a request: the
tables, the failures the driver and the session manager will report on the
coming calls (`none`, or an exhausted list, is a call that works), the
session, the response, the two logs, `time.Now().Year()`, the record of the
calls made so far, and the value (printed with `%s`) of a panic that is
unwinding the stack: a handler that panics returns the world as the panic
left it, with `panicValue` set. -/
structure World where
  db : Database
  faults : List (Option GoError)
  session : SessionData
  w : ResponseWriter
  errorLog : List GoError
  infoLog : List String
  currentYear : Int
  trace : List Call
  panicValue : Option String
  deriving DecidableEq, Repr

/-- Go `http.Handler`: serving a request changes the world. -/
abbrev Handler := Request → World → World

/-- The failure of the next fallible call, if any. -/
def World.nextFault (s : World) : Option GoError :=
  match s.faults with
  | [] => none
  | f :: _ => f

/-- The world once the middleware has been entered. -/
def World.entered (s : World) (middleware : String) : World :=
  { s with trace := s.trace ++ [.Entered middleware] }

/-- The world once that call has been made. -/
def World.called (s : World) (c : Call) : World :=
  { s with faults := s.faults.tail, trace := s.trace ++ [c] }

/-- Go `app.models.Users.Insert(...)`: the next two entries of `faults` are the
failures of `Exec` and of `LastInsertId`. -/
def World.UsersInsert (s : World) (bc : Bcrypt) (name email password : String)
    (role : UserRole) : (Int × Option GoError) × World :=
  let r := UserModel.Insert bc s.db s.nextFault
    ({ s with faults := s.faults.tail }).nextFault name email password role
  (r.1, { s with db := r.2, faults := s.faults.tail.tail,
                 trace := s.trace ++ [.UsersInsert name email role] })

/-- Go `app.models.Users.Authenticate(email, password)`. -/
def World.UsersAuthenticate (s : World) (bc : Bcrypt) (email password : String) :
    (Int × Option GoError) × World :=
  (UserModel.Authenticate bc s.db s.nextFault email password,
    s.called (.UsersAuthenticate email))

/-- Go `app.models.Users.Get(id)`. -/
def World.UsersGet (s : World) (id : Int) : Except GoError User × World :=
  (UserModel.Get s.db s.nextFault id, s.called (.UsersGet id))

/-- Go `app.models.Users.Exists(id)`. -/
def World.UsersExists (s : World) (id : Int) : (Bool × Option GoError) × World :=
  (UserModel.Exists s.db s.nextFault id, s.called (.UsersExists id))

/-- The world after a `RenewToken` that worked. -/
def World.renewed (s : World) : World :=
  { s.called (.RenewToken none) with session := s.session.RenewToken }

/-- Go `app.sessionManager.RenewToken(req.Context())`. -/
def World.RenewToken (s : World) : Option GoError × World :=
  match s.nextFault with
  | some err => (some err, s.called (.RenewToken (some err)))
  | none => (none, s.renewed)

/-- Go `app.sessionManager.Put(req.Context(), key, val)`. -/
def World.Put (s : World) (key : String) (val : SessionValue) : World :=
  { s with session := s.session.Put key val, trace := s.trace ++ [.Put key val] }

/-- Go `app.sessionManager.Remove(req.Context(), key)`. -/
def World.Remove (s : World) (key : String) : World :=
  { s with session := s.session.Remove key, trace := s.trace ++ [.Remove key] }

/-- Go `app.sessionManager.PopString(req.Context(), key)`. -/
def World.PopString (s : World) (key : String) : String × World :=
  ((s.session.PopString key).1,
    { s with session := (s.session.PopString key).2, trace := s.trace ++ [.PopString key] })

/-- Go `func (app *application) serverError(w, err)`: the log entry stands for
`err.Error()` followed by the stack trace. -/
def application.serverError (_app : application) (err : GoError) (s : World) : World :=
  { s with errorLog := s.errorLog ++ [err], w := httpError s.w (StatusText 500) 500 }

/-- Go `func (app *application) clientError(w, status)`. -/
def application.clientError (_app : application) (status : Nat) (s : World) : World :=
  { s with w := httpError s.w (StatusText status) status }

/-- Go `func (app *application) renderer(w, req, page, status, data)`. -/
def application.renderer (app : application) (page : String) (status : Nat)
    (data : templateData) (s : World) : World :=
  match app.tempCache page with
  | none => app.serverError (.other ("the template " ++ page ++ " does not exist")) s
  | some ts =>
    match ts data with
    | .error err => app.serverError err s
    | .ok buf => { s with w := (s.w.WriteHeader status).Write buf }

/-- Go `func (app *application) decodePostForm(req, dst)`: every destination
field is a string, so only `req.ParseForm()` can fail. -/
def application.decodePostForm (_app : application) (req : Request) : Option GoError :=
  req.parseFormErr

/-- The value the form decoder gives a string field tagged `form:"key"`. -/
def formValue (req : Request) (key : String) : String :=
  (req.PostForm.lookup key).getD ""

/-- Go `func (app *application) isAuthenticated(req) bool`. -/
def application.isAuthenticated (_app : application) (req : Request) : Bool :=
  match req.isAuthenticatedContext with
  | none => false
  | some isAuthenticated => isAuthenticated

/-- Go `func (app *application) newTemplateData(req) *templateData`. -/
def application.newTemplateData (app : application) (req : Request) (s : World) :
    templateData × World :=
  let (flash, s1) := s.PopString "flash"
  let data : templateData :=
    { CurrentYear := s.currentYear, Flash := flash, Form := .none,
      IsAuthenticated := app.isAuthenticated req, CSRFToken := req.csrfToken, User := none }
  if data.IsAuthenticated then
    let userID := s1.session.GetInt "authenticatedUserId"
    match s1.UsersGet userID with
    | (.ok user, s2) => ({ data with User := some user }, s2)
    | (.error _, s2) => (data, s2)
  else (data, s1)

/-- Go `http.Redirect(w, req, url, code)` on the response of the world. -/
def World.Redirect (s : World) (req : Request) (url : String) (code : Nat) : World :=
  { s with w := httpRedirect s.w req.Method url code }

/-! ## Middleware (`cmd/web/middleware.go`) -/

/-- Go `func (app *application) authenticate(next http.Handler) http.Handler`. -/
def application.authenticate (app : application) (next : Handler) : Handler :=
  fun req s =>
    let id := s.session.GetInt "authenticatedUserId"
    if id == 0 then next req s
    else
      let (r, s1) := s.UsersExists id
      match r.2 with
      | some err => app.serverError err s1
      | none =>
        let req1 := if r.1 then { req with isAuthenticatedContext := some true } else req
        next req1 s1

/-- Go `func (app *application) requireRole(role models.UserRole) func(http.Handler) http.Handler`. -/
def application.requireRole (app : application) (role : UserRole) (next : Handler) : Handler :=
  fun req s =>
    let userID := s.session.GetInt "authenticatedUserId"
    match s.UsersGet userID with
    | (.error err, s1) => app.serverError err s1
    | (.ok user, s1) =>
      if user.Role != role then
        (s1.Put "flash" (.str "You don't have permission to access this page")).Redirect
          req "/" 303
      else next req s1

/-- The loop of `requireAnyRole` over `roles`, leaving at the first match. -/
def hasRole (userRole : UserRole) : List UserRole → Bool
  | [] => false
  | role :: roles => if userRole == role then true else hasRole userRole roles

/-- Go `func (app *application) requireAnyRole(roles ...models.UserRole) func(http.Handler) http.Handler`. -/
def application.requireAnyRole (app : application) (roles : List UserRole) (next : Handler) :
    Handler :=
  fun req s =>
    let userID := s.session.GetInt "authenticatedUserId"
    match s.UsersGet userID with
    | (.error err, s1) => app.serverError err s1
    | (.ok user, s1) =>
      if !hasRole user.Role roles then
        (s1.Put "flash" (.str "You don't have permission to access this page")).Redirect
          req "/" 303
      else next req s1

/-! ## Handlers (`cmd/web/handlers.go`) -/

/-- The form of `userSignupPost` after decoding and the six `CheckField` calls. -/
def application.checkedSignupForm (app : application) (req : Request) : userSignupForm :=
  let form : userSignupForm :=
    { Name := formValue req "name", Email := formValue req "email",
      Password := formValue req "password", Role := formValue req "role",
      Validator := { NonFieldErrors := [], FieldErrors := [] } }
  let v := form.Validator
  let v := v.CheckField (app.rules.NotBlank form.Name) "name" "This field cannot be blank"
  let v := v.CheckField (app.rules.NotBlank form.Email) "email" "This field cannot be blank"
  let v := v.CheckField (app.rules.MatchesEmailRX form.Email) "email"
    "This field must be a valid email address"
  let v := v.CheckField (app.rules.NotBlank form.Password) "password"
    "This field cannot be blank"
  let v := v.CheckField (app.rules.MinChars form.Password 8) "password"
    "This field must be at least 8 characters long"
  let validRole := form.Role == RoleStudent || form.Role == RoleLawyer ||
    form.Role == RoleRecruiter
  let v := v.CheckField validRole "role" "Please select a valid role"
  { form with Validator := v }

/-- Go `func (app *application) userSignupPost(w, req)`. -/
def application.userSignupPost (app : application) : Handler :=
  fun req s =>
    match app.decodePostForm req with
    | some _ => app.clientError 400 s
    | none =>
      let form := app.checkedSignupForm req
      if !form.Validator.Valid then
        let (data, s1) := app.newTemplateData req s
        app.renderer "signup.tmpl.html" 422 { data with Form := .signup form } s1
      else
        let (r, s1) := s.UsersInsert app.bcrypt form.Name form.Email form.Password form.Role
        match r.2 with
        | some err =>
          if errorsIs err .ErrDuplicateEmail then
            let form := { form with Validator :=
              form.Validator.AddFieldErrors "email" "Email address is already in use" }
            let (data, s2) := app.newTemplateData req s1
            app.renderer "signup.tmpl.html" 422 { data with Form := .signup form } s2
          else app.serverError err s1
        | none =>
          (s1.Put "flash" (.str "Your signup was successful. Please log in.")).Redirect
            req "/user/login" 303

/-- The form of `userLoginPost` after decoding and the three `CheckField` calls. -/
def application.checkedLoginForm (app : application) (req : Request) : userLoginForm :=
  let form : userLoginForm :=
    { Email := formValue req "email", Password := formValue req "password",
      Validator := { NonFieldErrors := [], FieldErrors := [] } }
  let v := form.Validator
  let v := v.CheckField (app.rules.NotBlank form.Email) "email" "This field cannot be blank"
  let v := v.CheckField (app.rules.MatchesEmailRX form.Email) "email"
    "This field must be a valid email address"
  let v := v.CheckField (app.rules.NotBlank form.Password) "password"
    "This field cannot be blank"
  { form with Validator := v }

/-- Go `func (app *application) userLoginPost(w, req)`. -/
def application.userLoginPost (app : application) : Handler :=
  fun req s =>
    match app.decodePostForm req with
    | some _ => app.clientError 400 s
    | none =>
      let form := app.checkedLoginForm req
      if !form.Validator.Valid then
        let (data, s1) := app.newTemplateData req s
        app.renderer "login.tmpl.html" 422 { data with Form := .login form } s1
      else
        let (r, s1) := s.UsersAuthenticate app.bcrypt form.Email form.Password
        match r.2 with
        | some err =>
          if errorsIs err .ErrInvalidCredentials then
            let form := { form with Validator :=
              form.Validator.AddNonFieldError "Email or password is incorrect" }
            let (data, s2) := app.newTemplateData req s1
            app.renderer "login.tmpl.html" 422 { data with Form := .login form } s2
          else app.serverError err s1
        | none =>
          let (renewErr, s2) := s1.RenewToken
          match renewErr with
          | some err => app.serverError err s2
          | none =>
            let s3 := s2.Put "authenticatedUserId" (.int r.1)
            match s3.UsersGet r.1 with
            | (.error err, s4) => app.serverError err s4
            | (.ok user, s4) =>
              if user.Role == RoleStudent then s4.Redirect req "/student/dashboard" 303
              else if user.Role == RoleLawyer then s4.Redirect req "/lawyer/dashboard" 303
              else if user.Role == RoleRecruiter then
                s4.Redirect req "/recruiter/dashboard" 303
              else s4.Redirect req "/" 303

/-- Go `func (app *application) userLogout(w, req)`. -/
def application.userLogout (app : application) : Handler :=
  fun req s =>
    match s.RenewToken with
    | (some err, s1) => app.serverError err s1
    | (none, s1) =>
      ((s1.Remove "authenticatedUserId").Put "flash"
        (.str "You've been logged out successfully!")).Redirect req "/" 303

/-! ## Remaining middleware and handlers -/

/-- Go `func secureHeaders(next http.Handler) http.Handler`; `Header.Set` stores
"X-XSS-Protection" under its canonical key. -/
def secureHeaders (next : Handler) : Handler :=
  fun req s =>
    let s := s.entered "secureHeaders"
    let h := s.w.header
    let h := headerSet h "Access-Control-Allow-Origin" "https://lawbookv2.vercel.app"
    let h := headerSet h "Access-Control-Allow-Credentials" "true"
    let h := headerSet h "Access-Control-Allow-Methods" "GET, POST, OPTIONS"
    let h := headerSet h "Access-Control-Allow-Headers" "Content-Type, Authorization"
    let h := headerSet h "Content-Security-Policy"
      "default-src 'self'; style-src 'self' fonts.googleapis.com; font-src fonts.gstatic.com"
    let h := headerSet h "Referrer-Policy" "origin-when-cross-origin"
    let h := headerSet h "X-Content-Type-Options" "nosniff"
    let h := headerSet h "X-Frame-Options" "deny"
    let h := headerSet h "X-Xss-Protection" "0"
    next req { s with w := { s.w with header := h } }

/-- Go `func (app *application) logRequest(next http.Handler) http.Handler`. -/
def application.logRequest (_app : application) (next : Handler) : Handler :=
  fun req s =>
    let s := s.entered "logRequest"
    next req { s with infoLog := s.infoLog ++
      [req.RemoteAddr ++ " - " ++ req.Proto ++ " " ++ req.Method ++ " " ++ req.RequestURI] }

/-- Go `func (app *application) recoverPanic(next http.Handler) http.Handler`: the
deferred function runs when `next` is left; if a panic left it, `recover()`
returns its value, the header "Connection: close" is set and the answer is
`serverError` with `fmt.Errorf("%s", err)`. -/
def application.recoverPanic (app : application) (next : Handler) : Handler :=
  fun req s =>
    let out := next req (s.entered "recoverPanic")
    match out.panicValue with
    | some err =>
      app.serverError (.other err)
        { out with
          panicValue := none
          w := { out.w with header := headerSet out.w.header "Connection" "close" } }
    | none => out

/-- Go `func (app *application) requireAuthentication(next http.Handler) http.Handler`. -/
def application.requireAuthentication (app : application) (next : Handler) : Handler :=
  fun req s =>
    let s := s.entered "requireAuthentication"
    if !app.isAuthenticated req then
      (s.Put "redirectPathAfterLogin" (.str req.Path)).Redirect req "/user/login" 303
    else
      next req { s with w := { s.w with header := headerAdd s.w.header "Cache-Control" "no-store" } }

/-- The handlers the program takes from outside its sources: the session
middleware of `scs`, the CSRF handler `nosurf.New` (given the failure handler,
which receives the text of `nosurf.Reason`), `http.FileServer` on the static
directory, and what `httprouter` does with a request no registered route
matches (given the `NotFound` and `MethodNotAllowed` handlers).
Modelled from the spec: `apiUserMe`, the JSON endpoint of the current user,
is a handler of the repository whose source is missing; it is a parameter. -/
structure Collaborators where
  LoadAndSave : Handler → Handler
  nosurfNew : (String → Handler) → Handler → Handler
  fileServer : Handler
  routerMiss : Handler → Handler → Handler
  apiUserMe : Handler

/-- Go `func noSurf(next http.Handler) http.Handler`; the base cookie has no
counterpart in the embedding. -/
def noSurf (pk : Collaborators) (next : Handler) : Handler :=
  fun req s =>
    pk.nosurfNew
      (fun reason _req s =>
        { s with w := httpError s.w ("CSRF token validation failed: " ++ reason) 400 })
      next req (s.entered "noSurf")

/-- Go `func (app *application) notFound(w)`. -/
def application.notFound (app : application) (s : World) : World :=
  app.clientError 404 s

/-- Go `func (app *application) routerWrap() http.HandlerFunc`. -/
def application.routerWrap (app : application) : Handler :=
  fun _req s => app.notFound s

/-- Go `func (app *application) home(w, req)`. -/
def application.home (app : application) : Handler :=
  fun req s =>
    let (data, s1) := app.newTemplateData req s
    app.renderer "home.tmpl.html" 200 data s1

/-- Go `func (app *application) about(w, req)`. -/
def application.about (app : application) : Handler :=
  fun req s =>
    let (data, s1) := app.newTemplateData req s
    app.renderer "about.tmpl.html" 200 data s1

/-- Go `func (app *application) userSignup(w, req)`. -/
def application.userSignup (app : application) : Handler :=
  fun req s =>
    let (data, s1) := app.newTemplateData req s
    app.renderer "signup.tmpl.html" 200
      { data with Form := .signup (
          { Name := "", Email := "", Password := "", Role := "",
            Validator := { NonFieldErrors := [], FieldErrors := [] } } : userSignupForm) } s1

/-- Go `func (app *application) userLogin(w, req)`. -/
def application.userLogin (app : application) : Handler :=
  fun req s =>
    let (data, s1) := app.newTemplateData req s
    app.renderer "login.tmpl.html" 200
      { data with Form := .login (
          { Email := "", Password := "",
            Validator := { NonFieldErrors := [], FieldErrors := [] } } : userLoginForm) } s1

/-- Go `func (app *application) accountView(w, req)`. -/
def application.accountView (app : application) : Handler :=
  fun req s =>
    let userID := s.session.GetInt "authenticatedUserId"
    match s.UsersGet userID with
    | (.error err, s1) =>
      if errorsIs err .ErrNoRecord then s1.Redirect req "/user/login" 303
      else app.serverError err s1
    | (.ok user, s1) =>
      let (data, s2) := app.newTemplateData req s1
      app.renderer "account.tmpl.html" 200 { data with User := some user } s2

/-- Go `func (app *application) studentDashboard(w, req)`. -/
def application.studentDashboard (app : application) : Handler :=
  fun req s =>
    let (data, s1) := app.newTemplateData req s
    app.renderer "student-dashboard.tmpl.html" 200 data s1

/-- Go `func (app *application) lawyerDashboard(w, req)`. -/
def application.lawyerDashboard (app : application) : Handler :=
  fun req s =>
    let (data, s1) := app.newTemplateData req s
    app.renderer "lawyer-dashboard.tmpl.html" 200 data s1

/-- Go `func (app *application) recruiterDashboard(w, req)`. -/
def application.recruiterDashboard (app : application) : Handler :=
  fun req s =>
    let (data, s1) := app.newTemplateData req s
    app.renderer "recruiter-dashboard.tmpl.html" 200 data s1

/-- Go `func (app *application) mootCourtSetup(w, req)`. -/
def application.mootCourtSetup (app : application) : Handler :=
  fun req s =>
    let (data, s1) := app.newTemplateData req s
    app.renderer "moot-setup.tmpl.html" 200 data s1

/-- Go `func (app *application) mootCourtSession(w, req)`. -/
def application.mootCourtSession (app : application) : Handler :=
  fun req s =>
    let (data, s1) := app.newTemplateData req s
    app.renderer "moot-session.tmpl.html" 200 data s1

/-! ## Routing (`cmd/web/routes.go`) -/

/-- The middleware constructors `routes()` hands to `alice`. -/
inductive Stage where
  | recoverPanic
  | logRequest
  | secureHeaders
  | LoadAndSave
  | noSurf
  | authenticate
  | requireAuthentication
  | requireRole (role : UserRole)
  | requireAnyRole (roles : List UserRole)
  deriving DecidableEq, Repr

/-- The function each constructor stands for. -/
def Stage.wrap (app : application) (pk : Collaborators) : Stage → Handler → Handler
  | .recoverPanic => app.recoverPanic
  | .logRequest => app.logRequest
  | .secureHeaders => Lawbook.secureHeaders
  | .LoadAndSave => pk.LoadAndSave
  | .noSurf => Lawbook.noSurf pk
  | .authenticate => app.authenticate
  | .requireAuthentication => app.requireAuthentication
  | .requireRole role => app.requireRole role
  | .requireAnyRole roles => app.requireAnyRole roles

/-- Go `alice.Chain`. -/
structure Chain where
  constructors : List Stage
  deriving DecidableEq, Repr

/-- Go `alice.New(constructors...)`. -/
def alice.New (constructors : List Stage) : Chain :=
  { constructors := constructors }

/-- Go `func (c Chain) Append(constructors ...Constructor) Chain`. -/
def Chain.Append (c : Chain) (constructors : List Stage) : Chain :=
  { constructors := c.constructors ++ constructors }

/-- Go `func (c Chain) Then(h http.Handler) http.Handler` (and `ThenFunc`): the loop
wraps `h` in the constructors from the last to the first. -/
def Chain.Then (app : application) (pk : Collaborators) (c : Chain) (h : Handler) : Handler :=
  c.constructors.reverse.foldl (fun h m => m.wrap app pk h) h

/-- The chain `standard` of `routes()`. -/
def standard : Chain :=
  alice.New [.recoverPanic, .logRequest, .secureHeaders]

/-- The chain `dynamic` of `routes()`. -/
def dynamic : Chain :=
  standard.Append [.LoadAndSave, .noSurf, .authenticate]

/-- The chain `protected` of `routes()`. -/
def protectedChain : Chain :=
  dynamic.Append [.requireAuthentication]

/-- The chain `studentOnly` of `routes()`. -/
def studentOnly : Chain :=
  protectedChain.Append [.requireRole RoleStudent]

/-- The chain `lawyerOnly` of `routes()`. -/
def lawyerOnly : Chain :=
  protectedChain.Append [.requireRole RoleLawyer]

/-- The chain `recruiterOnly` of `routes()`. -/
def recruiterOnly : Chain :=
  protectedChain.Append [.requireRole RoleRecruiter]

/-- The chain `mootCourtAccess` of `routes()`. -/
def mootCourtAccess : Chain :=
  protectedChain.Append [.requireAnyRole [RoleStudent, RoleLawyer]]

/-- Go `http.StripPrefix(pfx, h)` on the path of the request. -/
def httpStripPrefix (pfx : String) (h : Handler) : Handler :=
  if pfx = "" then h
  else fun req s =>
    if hasPrefix req.Path.data pfx.data then
      h { req with Path := String.mk (req.Path.data.drop pfx.length) } s
    else { s with w := httpError s.w "404 page not found" 404 }

/-- An entry of the router: `router.Handler(method, path, chain.ThenFunc(final))`;
the chain is empty for a handler registered as it is. -/
structure Route where
  method : String
  path : String
  chain : Chain
  final : Handler

/-- Whether a registered path matches the path of a request: character by
character, a `*` of the registered path (the catch-all `*filepath`) taking
whatever is left. -/
def pathMatches : List Char → List Char → Bool
  | '*' :: _, _ => true
  | [], [] => true
  | c :: pattern, d :: path => c == d && pathMatches pattern path
  | _, _ => false

/-- Whether the route is the one for the request. -/
def Route.serves (r : Route) (req : Request) : Bool :=
  r.method == req.Method && pathMatches r.path.data req.Path.data

/-- The routes registered by `routes()`, in the order of registration. -/
def application.routeTable (app : application) (pk : Collaborators) : List Route :=
  [ { method := "GET", path := "/static/*filepath", chain := alice.New [],
      final := httpStripPrefix "/static" pk.fileServer },
    { method := "GET", path := "/", chain := dynamic, final := app.home },
    { method := "GET", path := "/about", chain := dynamic, final := app.about },
    { method := "GET", path := "/api/user/me", chain := dynamic, final := pk.apiUserMe },
    { method := "GET", path := "/user/signup", chain := dynamic, final := app.userSignup },
    { method := "POST", path := "/user/signup", chain := dynamic,
      final := app.userSignupPost },
    { method := "GET", path := "/user/login", chain := dynamic, final := app.userLogin },
    { method := "POST", path := "/user/login", chain := dynamic, final := app.userLoginPost },
    { method := "POST", path := "/user/logout", chain := protectedChain,
      final := app.userLogout },
    { method := "GET", path := "/user/account", chain := protectedChain,
      final := app.accountView },
    { method := "GET", path := "/student/dashboard", chain := studentOnly,
      final := app.studentDashboard },
    { method := "GET", path := "/lawyer/dashboard", chain := lawyerOnly,
      final := app.lawyerDashboard },
    { method := "GET", path := "/recruiter/dashboard", chain := recruiterOnly,
      final := app.recruiterDashboard },
    { method := "GET", path := "/moot/setup", chain := mootCourtAccess,
      final := app.mootCourtSetup },
    { method := "GET", path := "/moot/session", chain := mootCourtAccess,
      final := app.mootCourtSession } ]

/-- The `router` of `routes()` serving a request: the handler registered for
its method and path, else the router's answer to an unmatched request, with
`app.routerWrap()` as `NotFound` and as `MethodNotAllowed`. -/
def application.router (app : application) (pk : Collaborators) : Handler :=
  fun req s =>
    match (app.routeTable pk).find? (fun r => r.serves req) with
    | some r => Chain.Then app pk r.chain r.final req s
    | none => pk.routerMiss app.routerWrap app.routerWrap req s

/-- Go `func (app *application) routes() http.Handler`: `dynamic.Then(router)`. -/
def application.routes (app : application) (pk : Collaborators) : Handler :=
  Chain.Then app pk dynamic (app.router pk)

/-! ## Vocabulary of the properties -/

/-- The redirect target the description of login gives each role: one
dashboard per enumerated role and the home page for any other value. -/
def loginRedirectTarget (role : UserRole) : String :=
  if role = "student" then "/student/dashboard"
  else if role = "lawyer" then "/lawyer/dashboard"
  else if role = "recruiter" then "/recruiter/dashboard"
  else "/"

/-- The next `n` fallible calls work. -/
def World.healthy (s : World) (n : Nat) : Prop :=
  ∀ f ∈ s.faults.take n, f = none

/-- The calls recorded between the world `s` and the later world `out`. -/
def callsMade (s out : World) : List Call :=
  out.trace.drop s.trace.length

/-- Every `Put` of `key` among the calls comes after a `RenewToken` that
returned nil. -/
def putsFollowRenewal (key : String) (calls : List Call) : Prop :=
  ∀ (before after : List Call) (val : SessionValue),
    calls = before ++ Call.Put key val :: after → Call.RenewToken none ∈ before

/-- The chain of `err` holds a `*mysql.MySQLError` with this number and
message: the error is one, or wraps an error that holds one. -/
inductive HoldsMySQLError : GoError → Nat → String → Prop where
  | here (number : Nat) (message : String) :
      HoldsMySQLError (.MySQLError number message) number message
  | wrapped (text : String) (inner : GoError) (number : Nat) (message : String) :
      HoldsMySQLError inner number message →
      HoldsMySQLError (.wrap text inner) number message

/-! ## Example data -/

/-- A stand-in for bcrypt in examples: the "hash" is the list of code points. -/
def plainBcrypt : Bcrypt where
  newFromPassword := fun password _ => .ok (password.data.map Char.toNat)
  CompareHashAndPassword := fun hash password =>
    if hash = password.data.map Char.toNat then none
    else some .ErrMismatchedHashAndPassword

/-- Ann, an active student whose password is "longenough1". -/
def ann : User where
  ID := 1
  Name := "Ann"
  Email := "a@x.com"
  HashedPassword := "longenough1".data.map Char.toNat
  Role := RoleStudent
  CreatedAt := 0
  UpdatedAt := 0
  IsActive := true
  EmailVerified := false

/-- Bob, a deactivated lawyer whose password is "hunter2hunter2". -/
def bob : User where
  ID := 2
  Name := "Bob"
  Email := "b@x.com"
  HashedPassword := "hunter2hunter2".data.map Char.toNat
  Role := RoleLawyer
  CreatedAt := 0
  UpdatedAt := 0
  IsActive := false
  EmailVerified := false

/-- A database holding Ann and Bob and one session of Ann expiring at instant 100. -/
def sampleDB : Database where
  users := [ann, bob]
  sessions := [{ Token := "TOKENA", UserID := 1, Expiry := 100 }]
  autoIncrement := 3
  emailKey := "users.users_uc_email"
  clock := 0

/-- Stand-ins for the rules of `internal/validator` in examples. -/
def sampleRules : validator.Rules where
  NotBlank := fun value => value.data.any (fun c => c != ' ')
  MatchesEmailRX := fun value => value.data.contains '@'
  MinChars := fun value n => decide (n ≤ value.length)

/-- An application whose cache holds the login and signup pages; a page
renders to its name followed by the flash message. -/
def sampleApp : application where
  tempCache := fun page =>
    if page = "login.tmpl.html" ∨ page = "signup.tmpl.html" then
      some (fun data => .ok (page ++ ":" ++ data.Flash))
    else none
  bcrypt := plainBcrypt
  rules := sampleRules

/-- A response nothing has been written to. -/
def freshWriter : ResponseWriter where
  header := []
  status := none
  body := ""

/-- A world over `sampleDB` with an empty session and no failure ahead. -/
def sampleWorld : World where
  db := sampleDB
  faults := []
  session := { tokenGeneration := 0, values := [] }
  w := freshWriter
  errorLog := []
  infoLog := []
  currentYear := 2025
  trace := []
  panicValue := none

/-- The same world with user `id` stored in the session. -/
def loggedInWorld (id : Int) : World :=
  { sampleWorld with
    session := { tokenGeneration := 1, values := [("authenticatedUserId", .int id)] } }

/-- A request with the given method, path and form values. -/
def sampleRequest (method path : String) (form : List (String × String)) : Request where
  Method := method
  Path := path
  RemoteAddr := "127.0.0.1:50000"
  Proto := "HTTP/1.1"
  RequestURI := path
  parseFormErr := none
  PostForm := form
  isAuthenticatedContext := none
  csrfToken := "csrf"

/-- A final handler that writes a page. -/
def pageHandler : Handler :=
  fun req s => { s with w := s.w.Write ("page " ++ req.Path) }

/-- A session that holds a user ID and the path a visitor was sent to the
login page from. -/
def returningWorld : World :=
  { sampleWorld with
    session := { tokenGeneration := 1,
                 values := [("redirectPathAfterLogin", .str "/user/account"),
                            ("authenticatedUserId", .int 1)] } }

/-- Stand-ins for the outside handlers in examples: the session middleware
records its entry and passes the request on, the CSRF handler passes every
request on, the file server and `apiUserMe` write a line, and an unmatched
request goes to `NotFound`. -/
def samplePackages : Collaborators where
  LoadAndSave := fun next req s => next req (s.entered "LoadAndSave")
  nosurfNew := fun _ next => next
  fileServer := fun req s => { s with w := s.w.Write ("file " ++ req.Path) }
  routerMiss := fun notFound _ => notFound
  apiUserMe := fun _ s => { s with w := s.w.Write "me" }

/-- A password of 73 letters. -/
def longPassword : String := String.mk (List.replicate 73 'a')

/-- The signup form of a new student, Cy, with the password of 73 letters. -/
def longSignup : Request :=
  sampleRequest "POST" "/user/signup"
    [("name", "Cy"), ("email", "c@x.com"), ("password", longPassword), ("role", "student")]

/-- The sample database with the unique key on the email under another name. -/
def renamedKeyDB : Database :=
  { sampleDB with emailKey := "users.uq_login" }

/-- A random source that delivers the bytes 0, 1, 2, ... -/
def countingSource : RandSource where
  failure := none
  byte := fun i => i

/-- A random source that delivers the byte 255 throughout. -/
def onesSource : RandSource where
  failure := none
  byte := fun _ => 255

/-! ## Lemmas on the tables -/

theorem find?_eq_none_of_forall_ne {α κ : Type} [DecidableEq κ] (key : α → κ) (k : κ) :
    ∀ (l : List α), (∀ a ∈ l, key a ≠ k) → l.find? (fun a => key a == k) = none := by
  intro l h
  rw [List.find?_eq_none]
  intro a ha
  simpa using h a ha

theorem find?_eq_some_of_nodup {α κ : Type} [DecidableEq κ] (key : α → κ) (k : κ) (row : α) :
    ∀ (l : List α), (l.map key).Nodup → row ∈ l → key row = k →
      l.find? (fun a => key a == k) = some row := by
  intro l
  induction l with
  | nil => intro _ hmem; cases hmem
  | cons a l ih =>
    intro hnd hmem hkey
    rw [List.map_cons, List.nodup_cons] at hnd
    rcases List.mem_cons.mp hmem with h | h
    · subst h
      simp [List.find?_cons, hkey]
    · have hne : key a ≠ k := by
        intro hak
        apply hnd.1
        rw [hak, ← hkey]
        exact List.mem_map_of_mem key h
      have hb : (key a == k) = false := by simpa using hne
      rw [List.find?_cons, hb]
      exact ih hnd.2 h hkey

theorem any_eq_false_of_forall_ne {α κ : Type} [DecidableEq κ] (key : α → κ) (k : κ) :
    ∀ (l : List α), (∀ a ∈ l, key a ≠ k) → l.any (fun a => key a == k) = false := by
  intro l h
  rw [List.any_eq_false]
  intro a ha
  simpa using h a ha

theorem userByEmail_of_absent (db : Database) (email : String)
    (hAbsent : ∀ u ∈ db.users, u.Email ≠ email) :
    db.userByEmail none email = .error .sqlErrNoRows := by
  simp [Database.userByEmail, find?_eq_none_of_forall_ne (fun u : User => u.Email) email _ hAbsent]

theorem userByEmail_of_mem (db : Database) (email : String) (row : User)
    (hUnique : (db.users.map (fun u => u.Email)).Nodup)
    (hRow : row ∈ db.users) (hEmail : row.Email = email) :
    db.userByEmail none email = .ok row := by
  simp [Database.userByEmail,
    find?_eq_some_of_nodup (fun u : User => u.Email) email row _ hUnique hRow hEmail]

theorem hasPrefix_append (sub : List Char) :
    ∀ (s t : List Char), hasPrefix s sub = true → hasPrefix (s ++ t) sub = true := by
  induction sub with
  | nil => intro s t _; cases s <;> cases t <;> simp [hasPrefix]
  | cons d sub ih =>
    intro s t h
    cases s with
    | nil => simp [hasPrefix] at h
    | cons c s =>
      simp only [hasPrefix, Bool.and_eq_true] at h
      simp only [List.cons_append, hasPrefix, Bool.and_eq_true]
      exact ⟨h.1, ih s t h.2⟩

theorem containsChars_append_right (sub : List Char) :
    ∀ (s t : List Char), containsChars s sub = true → containsChars (s ++ t) sub = true := by
  intro s
  induction s with
  | nil =>
    intro t h
    cases sub with
    | nil => cases t <;> simp [containsChars, hasPrefix]
    | cons d sub => simp [containsChars, hasPrefix] at h
  | cons c s ih =>
    intro t h
    simp only [containsChars, Bool.or_eq_true] at h
    simp only [List.cons_append, containsChars, Bool.or_eq_true]
    rcases h with h | h
    · exact Or.inl (hasPrefix_append sub (c :: s) t h)
    · exact Or.inr (ih t h)

theorem containsChars_append_left (sub : List Char) :
    ∀ (r s : List Char), containsChars s sub = true → containsChars (r ++ s) sub = true := by
  intro r
  induction r with
  | nil => intro s h; simpa using h
  | cons c r ih =>
    intro s h
    simp only [List.cons_append, containsChars, Bool.or_eq_true]
    exact Or.inr (ih s h)

theorem duplicateEntryMessage_contains (email key sub : String)
    (h : stringsContains key sub = true) :
    stringsContains (duplicateEntryMessage email key) sub = true := by
  unfold stringsContains duplicateEntryMessage at *
  simp only [String.data_append]
  apply containsChars_append_right
  apply containsChars_append_left
  exact h

theorem insertUser_fresh (db : Database) (name email : String) (hash : List Nat)
    (role : UserRole) (hFresh : ∀ u ∈ db.users, u.Email ≠ email) :
    db.insertUser none name email hash role =
      (.ok db.autoIncrement,
        { db with
          users := db.users ++
            [{ ID := db.autoIncrement, Name := name, Email := email,
               HashedPassword := hash, Role := role,
               CreatedAt := db.clock, UpdatedAt := db.clock,
               IsActive := true, EmailVerified := false }]
          autoIncrement := db.autoIncrement + 1 }) := by
  simp [Database.insertUser,
    any_eq_false_of_forall_ne (fun u : User => u.Email) email _ hFresh]

theorem insertUser_duplicate (db : Database) (name email : String) (hash : List Nat)
    (role : UserRole) (hDup : ∃ u ∈ db.users, u.Email = email) :
    db.insertUser none name email hash role =
      (.error (.MySQLError 1062 (duplicateEntryMessage email db.emailKey)),
        { db with autoIncrement := db.autoIncrement + 1 }) := by
  have hAny : db.users.any (fun u => u.Email == email) = true := by
    rw [List.any_eq_true]
    obtain ⟨u, hu, he⟩ := hDup
    exact ⟨u, hu, by simpa using he⟩
  simp [Database.insertUser, hAny]

/-! ## The credential store -/

/-- C1: when the lookup round trip succeeds, `Authenticate` returns the pair
`(0, ErrInvalidCredentials)` both when no row has the email and when the row
with the email is active and bcrypt reports a mismatch for the password, so the
two returned pairs are equal. -/
theorem authenticate_unknown_email_same_as_wrong_password
    (bc : Bcrypt) (db₁ db₂ : Database) (email₁ password₁ email₂ password₂ : String)
    (row : User)
    (hAbsent : ∀ u ∈ db₁.users, u.Email ≠ email₁)
    (hUnique : (db₂.users.map (fun u => u.Email)).Nodup)
    (hRow : row ∈ db₂.users) (hEmail : row.Email = email₂)
    (hActive : row.IsActive = true)
    (hMismatch : bc.CompareHashAndPassword row.HashedPassword password₂
      = some .ErrMismatchedHashAndPassword) :
    UserModel.Authenticate bc db₁ none email₁ password₁ = (0, some .ErrInvalidCredentials) ∧
    UserModel.Authenticate bc db₂ none email₂ password₂ = (0, some .ErrInvalidCredentials) ∧
    UserModel.Authenticate bc db₁ none email₁ password₁
      = UserModel.Authenticate bc db₂ none email₂ password₂ := by
  have h₁ : UserModel.Authenticate bc db₁ none email₁ password₁
      = (0, some .ErrInvalidCredentials) := by
    simp [UserModel.Authenticate, userByEmail_of_absent db₁ email₁ hAbsent, errorsIs]
  have h₂ : UserModel.Authenticate bc db₂ none email₂ password₂
      = (0, some .ErrInvalidCredentials) := by
    simp [UserModel.Authenticate, userByEmail_of_mem db₂ email₂ row hUnique hRow hEmail,
      hActive, hMismatch, errorsIs]
  exact ⟨h₁, h₂, h₁.trans h₂.symm⟩

theorem authenticate_unknown_email_same_as_wrong_password_witness :
    UserModel.Authenticate plainBcrypt sampleDB none "nobody@x.com" "longenough1"
      = (0, some .ErrInvalidCredentials) ∧
    UserModel.Authenticate plainBcrypt sampleDB none "a@x.com" "wrongpassword"
      = (0, some .ErrInvalidCredentials) ∧
    UserModel.Authenticate plainBcrypt sampleDB none "nobody@x.com" "longenough1"
      = UserModel.Authenticate plainBcrypt sampleDB none "a@x.com" "wrongpassword" :=
  authenticate_unknown_email_same_as_wrong_password plainBcrypt sampleDB sampleDB
    "nobody@x.com" "longenough1" "a@x.com" "wrongpassword" ann
    (by decide) (by decide) (by decide) (by decide) (by decide) (by decide)

theorem sampleDB_wellFormed : sampleDB.WellFormed := by
  refine ⟨?_, ?_, ?_⟩
  · decide
  · decide
  · decide

/-! ## The session store -/

/-- C3: when the lookup round trip succeeds, `SessionModel.Get` returns
`ErrNoRecord` if no row has the token; and for the row that has the token it
returns `ErrExpiredSession` (with ID 0) at every instant after the stored
expiry and the row's user ID with a nil error at every instant before it. -/
theorem session_get_outcomes
    (db : Database) (now : Int) (token : String) (row : Session)
    (hUnique : (db.sessions.map (fun s => s.Token)).Nodup) :
    ((∀ s ∈ db.sessions, s.Token ≠ token) →
      SessionModel.Get db none now token = (0, some .ErrNoRecord)) ∧
    (row ∈ db.sessions → row.Token = token → row.Expiry < now →
      SessionModel.Get db none now token = (0, some .ErrExpiredSession)) ∧
    (row ∈ db.sessions → row.Token = token → now < row.Expiry →
      SessionModel.Get db none now token = (row.UserID, none)) := by
  refine ⟨?_, ?_, ?_⟩
  · intro hAbsent
    simp [SessionModel.Get, Database.sessionByToken,
      find?_eq_none_of_forall_ne (fun s : Session => s.Token) token _ hAbsent]
  · intro hRow hToken hExpired
    simp [SessionModel.Get, Database.sessionByToken,
      find?_eq_some_of_nodup (fun s : Session => s.Token) token row _ hUnique hRow hToken,
      hExpired]
  · intro hRow hToken hLive
    have hNot : ¬ row.Expiry < now := not_lt.mpr (le_of_lt hLive)
    simp [SessionModel.Get, Database.sessionByToken,
      find?_eq_some_of_nodup (fun s : Session => s.Token) token row _ hUnique hRow hToken,
      hNot]

theorem session_get_outcomes_witness :
    SessionModel.Get sampleDB none 50 "UNKNOWN" = (0, some .ErrNoRecord) ∧
    SessionModel.Get sampleDB none 101 "TOKENA" = (0, some .ErrExpiredSession) ∧
    SessionModel.Get sampleDB none 99 "TOKENA" = (1, none) :=
  ⟨(session_get_outcomes sampleDB 50 "UNKNOWN" ⟨"TOKENA", 1, 100⟩ (by decide)).1 (by decide),
   (session_get_outcomes sampleDB 101 "TOKENA" ⟨"TOKENA", 1, 100⟩ (by decide)).2.1
      (by decide) (by decide) (by decide),
   (session_get_outcomes sampleDB 99 "TOKENA" ⟨"TOKENA", 1, 100⟩ (by decide)).2.2
      (by decide) (by decide) (by decide)⟩

/-! ## Inactive accounts -/

/-- C4: when the lookup round trip succeeds and the row with the email has its
active flag false, `Authenticate` returns `(0, ErrInactiveAccount)` whatever
bcrypt would answer for the password. -/
theorem authenticate_inactive_account
    (bc : Bcrypt) (db : Database) (email password : String) (row : User)
    (hUnique : (db.users.map (fun u => u.Email)).Nodup)
    (hRow : row ∈ db.users) (hEmail : row.Email = email)
    (hInactive : row.IsActive = false) :
    UserModel.Authenticate bc db none email password = (0, some .ErrInactiveAccount) := by
  simp [UserModel.Authenticate, userByEmail_of_mem db email row hUnique hRow hEmail,
    hInactive]

theorem authenticate_inactive_account_witness :
    plainBcrypt.CompareHashAndPassword bob.HashedPassword "hunter2hunter2" = none ∧
    UserModel.Authenticate plainBcrypt sampleDB none "b@x.com" "hunter2hunter2"
      = (0, some .ErrInactiveAccount) ∧
    UserModel.Authenticate plainBcrypt sampleDB none "b@x.com" "wrongpassword"
      = (0, some .ErrInactiveAccount) :=
  ⟨by decide,
   authenticate_inactive_account plainBcrypt sampleDB "b@x.com" "hunter2hunter2" bob
    (by decide) (by decide) (by decide) (by decide),
   authenticate_inactive_account plainBcrypt sampleDB "b@x.com" "wrongpassword" bob
    (by decide) (by decide) (by decide) (by decide)⟩

/-! ## Lemmas on headers, sessions and forms -/

theorem lookup_filter_ne {β : Type} (key : String) :
    ∀ (l : List (String × β)), (l.filter (fun kv => kv.1 != key)).lookup key = none := by
  intro l
  induction l with
  | nil => rfl
  | cons kv l ih =>
    obtain ⟨k, v⟩ := kv
    rw [List.filter_cons]
    by_cases h : k = key
    · have hk : (k != key) = false := by simpa using h
      simp only [hk]
      exact ih
    · have hk : (k != key) = true := by simpa using h
      have hb : (key == k) = false := by
        simpa using fun h' : key = k => h h'.symm
      simp only [hk, if_true]
      rw [List.lookup_cons]
      simp only [hb]
      exact ih

theorem lookup_filter_other {β : Type} (key other : String) (hne : other ≠ key) :
    ∀ (l : List (String × β)),
      (l.filter (fun kv => kv.1 != key)).lookup other = l.lookup other := by
  intro l
  induction l with
  | nil => rfl
  | cons kv l ih =>
    obtain ⟨k, v⟩ := kv
    rw [List.filter_cons]
    by_cases h : k = key
    · have hk : (k != key) = false := by simpa using h
      have hb : (other == k) = false := by
        simpa using fun h' : other = k => hne (h'.trans h)
      simp only [hk]
      rw [List.lookup_cons]
      simp only [hb]
      exact ih
    · have hk : (k != key) = true := by simpa using h
      simp only [hk, if_true]
      rw [List.lookup_cons, List.lookup_cons, ih]

theorem lookup_append_of_none {β : Type} (key : String) (l₁ l₂ : List (String × β))
    (h : l₁.lookup key = none) : (l₁ ++ l₂).lookup key = l₂.lookup key := by
  induction l₁ with
  | nil => rfl
  | cons kv l ih =>
    rw [List.lookup_cons] at h
    rw [List.cons_append, List.lookup_cons]
    cases hb : (key == kv.1) with
    | true => simp [hb] at h
    | false =>
      simp only [hb] at h
      exact ih h

theorem lookup_headerSet (h : List (String × String)) (key value : String) :
    (headerSet h key value).lookup key = some value := by
  unfold headerSet
  rw [lookup_append_of_none key _ _ (lookup_filter_ne key h)]
  simp [List.lookup_cons]

theorem lookup_put (sd : SessionData) (key : String) (val : SessionValue) :
    (sd.Put key val).values.lookup key = some val := by
  unfold SessionData.Put
  simp only
  rw [lookup_append_of_none key _ _ (lookup_filter_ne key sd.values)]
  simp [List.lookup_cons]

theorem hasRole_eq_true_iff (userRole : UserRole) :
    ∀ (roles : List UserRole), hasRole userRole roles = true ↔ userRole ∈ roles := by
  intro roles
  induction roles with
  | nil => simp [hasRole]
  | cons role roles ih =>
    by_cases h : userRole = role
    · simp [hasRole, h]
    · simp [hasRole, h, ih]

theorem header_WriteHeader (w : ResponseWriter) (code : Nat) :
    (w.WriteHeader code).header = w.header := by
  unfold ResponseWriter.WriteHeader
  split <;> rfl

theorem header_Write (w : ResponseWriter) (text : String) :
    (w.Write text).header = w.header := by
  simp [ResponseWriter.Write, header_WriteHeader]

theorem status_WriteHeader (w : ResponseWriter) (code : Nat) (hFresh : w.status = none) :
    (w.WriteHeader code).status = some code := by
  simp [ResponseWriter.WriteHeader, hFresh]

theorem status_Write_of_some (w : ResponseWriter) (text : String) (code : Nat)
    (h : w.status = some code) : (w.Write text).status = some code := by
  simp [ResponseWriter.Write, ResponseWriter.WriteHeader, h]

theorem httpRedirect_status (w : ResponseWriter) (method url : String) (code : Nat)
    (hFresh : w.status = none) : (httpRedirect w method url code).status = some code := by
  unfold httpRedirect
  simp only
  split
  · exact status_Write_of_some _ _ _ (status_WriteHeader _ _ hFresh)
  · exact status_WriteHeader _ _ hFresh

theorem httpRedirect_location (w : ResponseWriter) (method url : String) (code : Nat) :
    (httpRedirect w method url code).header.lookup "Location" = some url := by
  have hne : ("Location" : String) ≠ "Content-Type" := by decide
  have hCT : ∀ h : List (String × String),
      (headerSet (headerSet h "Location" url) "Content-Type"
        "text/html; charset=utf-8").lookup "Location" = some url := by
    intro h
    have h1 := lookup_headerSet h "Location" url
    unfold headerSet at h1 ⊢
    rw [List.lookup_append, lookup_filter_other "Content-Type" "Location" hne, h1]
    rfl
  have hH : ((if (!(w.header.lookup "Content-Type").isSome &&
        (method == "GET" || method == "HEAD")) = true then
      headerSet (headerSet w.header "Location" url) "Content-Type" "text/html; charset=utf-8"
      else headerSet w.header "Location" url)).lookup "Location" = some url := by
    split
    · exact hCT _
    · exact lookup_headerSet _ _ _
  unfold httpRedirect
  simp only
  split
  · rw [header_Write, header_WriteHeader]; exact hH
  · rw [header_WriteHeader]; exact hH

/-! ## The role gate -/

/-- C6: when `Users.Get` resolves the session-stored user ID to a user record,
`requireAnyRole roles` hands the request to `next` if the user's role is in
`roles`, and `requireRole role` if the user's role is `role`; otherwise neither
calls `next`: the result is the refusal, which stores the flash message
"You don't have permission to access this page" in the session and, on a
response not yet started, answers 303 with `Location: /`. -/
theorem role_gate_decision
    (app : application) (roles : List UserRole) (role : UserRole) (next : Handler)
    (req : Request) (s : World) (user : User)
    (hUser : UserModel.Get s.db s.nextFault (s.session.GetInt "authenticatedUserId")
      = .ok user) :
    (user.Role ∈ roles →
      app.requireAnyRole roles next req s
        = next req (s.called (.UsersGet (s.session.GetInt "authenticatedUserId")))) ∧
    (user.Role ∉ roles →
      app.requireAnyRole roles next req s
        = ((s.called (.UsersGet (s.session.GetInt "authenticatedUserId"))).Put "flash"
            (.str "You don't have permission to access this page")).Redirect req "/" 303) ∧
    (user.Role = role →
      app.requireRole role next req s
        = next req (s.called (.UsersGet (s.session.GetInt "authenticatedUserId")))) ∧
    (user.Role ≠ role →
      app.requireRole role next req s
        = ((s.called (.UsersGet (s.session.GetInt "authenticatedUserId"))).Put "flash"
            (.str "You don't have permission to access this page")).Redirect req "/" 303) ∧
    (((s.called (.UsersGet (s.session.GetInt "authenticatedUserId"))).Put "flash"
        (.str "You don't have permission to access this page")).Redirect
          req "/" 303).session.values.lookup "flash"
      = some (.str "You don't have permission to access this page") ∧
    (s.w.status = none →
      (((s.called (.UsersGet (s.session.GetInt "authenticatedUserId"))).Put "flash"
          (.str "You don't have permission to access this page")).Redirect
            req "/" 303).w.status = some 303 ∧
      (((s.called (.UsersGet (s.session.GetInt "authenticatedUserId"))).Put "flash"
          (.str "You don't have permission to access this page")).Redirect
            req "/" 303).w.header.lookup "Location" = some "/") := by
  refine ⟨?_, ?_, ?_, ?_, ?_, ?_⟩
  · intro hIn
    have hHas := (hasRole_eq_true_iff user.Role roles).mpr hIn
    simp [application.requireAnyRole, World.UsersGet, hUser, hHas]
  · intro hOut
    have hHas : hasRole user.Role roles = false := by
      cases h : hasRole user.Role roles with
      | false => rfl
      | true => exact absurd ((hasRole_eq_true_iff user.Role roles).mp h) hOut
    simp [application.requireAnyRole, World.UsersGet, hUser, hHas]
  · intro hEq
    simp [application.requireRole, World.UsersGet, hUser, hEq]
  · intro hNe
    simp [application.requireRole, World.UsersGet, hUser, hNe]
  · exact lookup_put _ _ _
  · intro hFresh
    exact ⟨httpRedirect_status _ _ _ _ hFresh, httpRedirect_location _ _ _ _⟩

theorem role_gate_decision_witness :
    sampleApp.requireAnyRole [RoleStudent, RoleLawyer] pageHandler
        (sampleRequest "GET" "/moot/setup" []) (loggedInWorld 1)
      = pageHandler (sampleRequest "GET" "/moot/setup" [])
          ((loggedInWorld 1).called (.UsersGet 1)) ∧
    sampleApp.requireRole RoleLawyer pageHandler
        (sampleRequest "GET" "/lawyer/dashboard" []) (loggedInWorld 1)
      = (((loggedInWorld 1).called (.UsersGet 1)).Put "flash"
          (.str "You don't have permission to access this page")).Redirect
            (sampleRequest "GET" "/lawyer/dashboard" []) "/" 303 ∧
    (sampleApp.requireRole RoleLawyer pageHandler
        (sampleRequest "GET" "/lawyer/dashboard" []) (loggedInWorld 1)).w.status
      = some 303 :=
  ⟨(role_gate_decision sampleApp [RoleStudent, RoleLawyer] RoleLawyer pageHandler
      (sampleRequest "GET" "/moot/setup" []) (loggedInWorld 1) { ann with HashedPassword := [] }
      rfl).1 (by decide),
   (role_gate_decision sampleApp [RoleStudent, RoleLawyer] RoleLawyer pageHandler
      (sampleRequest "GET" "/lawyer/dashboard" []) (loggedInWorld 1)
      { ann with HashedPassword := [] } rfl).2.2.2.1 (by decide),
   by decide⟩

/-! ## The authenticate middleware -/

/-- C7: `authenticate` hands `next` a request marked as authenticated exactly
when the session holds a stored user ID (`GetInt` is not zero) and
`Users.Exists` returns true.  With no stored ID, or with a stored ID for which
`Exists` returns false, `next` runs on the request as it arrived (so
unauthenticated if it arrived unmarked); when `Exists` fails, `next` does not
run and no mark is set.  The call to `Exists` leaves the session and the
tables as they were. -/
theorem authenticate_marks_request
    (app : application) (next : Handler) (req : Request) (s : World) :
    (s.session.GetInt "authenticatedUserId" = 0 →
      app.authenticate next req s = next req s) ∧
    (s.session.GetInt "authenticatedUserId" ≠ 0 →
      UserModel.Exists s.db s.nextFault (s.session.GetInt "authenticatedUserId")
        = (true, none) →
      app.authenticate next req s
        = next { req with isAuthenticatedContext := some true }
            (s.called (.UsersExists (s.session.GetInt "authenticatedUserId"))) ∧
      app.isAuthenticated { req with isAuthenticatedContext := some true } = true) ∧
    (s.session.GetInt "authenticatedUserId" ≠ 0 →
      UserModel.Exists s.db s.nextFault (s.session.GetInt "authenticatedUserId")
        = (false, none) →
      app.authenticate next req s
        = next req (s.called (.UsersExists (s.session.GetInt "authenticatedUserId")))) ∧
    (s.session.GetInt "authenticatedUserId" ≠ 0 →
      ∀ (found : Bool) (err : GoError),
      UserModel.Exists s.db s.nextFault (s.session.GetInt "authenticatedUserId")
        = (found, some err) →
      app.authenticate next req s
        = app.serverError err
            (s.called (.UsersExists (s.session.GetInt "authenticatedUserId")))) ∧
    (req.isAuthenticatedContext = none → app.isAuthenticated req = false) ∧
    (s.called (.UsersExists (s.session.GetInt "authenticatedUserId"))).session = s.session ∧
    (s.called (.UsersExists (s.session.GetInt "authenticatedUserId"))).db = s.db := by
  refine ⟨?_, ?_, ?_, ?_, ?_, rfl, rfl⟩
  · intro hZero
    simp [application.authenticate, hZero]
  · intro hID hExists
    refine ⟨?_, rfl⟩
    simp [application.authenticate, hID, World.UsersExists, hExists]
  · intro hID hExists
    simp [application.authenticate, hID, World.UsersExists, hExists]
  · intro hID found err hExists
    simp [application.authenticate, hID, World.UsersExists, hExists]
  · intro hNone
    simp [application.isAuthenticated, hNone]

theorem authenticate_marks_request_witness :
    sampleApp.authenticate pageHandler (sampleRequest "GET" "/" []) sampleWorld
      = pageHandler (sampleRequest "GET" "/" []) sampleWorld ∧
    sampleApp.authenticate pageHandler (sampleRequest "GET" "/" []) (loggedInWorld 1)
      = pageHandler { sampleRequest "GET" "/" [] with isAuthenticatedContext := some true }
          ((loggedInWorld 1).called (.UsersExists 1)) ∧
    sampleApp.authenticate pageHandler (sampleRequest "GET" "/" []) (loggedInWorld 99)
      = pageHandler (sampleRequest "GET" "/" [])
          ((loggedInWorld 99).called (.UsersExists 99)) ∧
    sampleApp.authenticate pageHandler (sampleRequest "GET" "/" [])
        { loggedInWorld 1 with faults := [some (.other "driver: bad connection")] }
      = sampleApp.serverError (.other "driver: bad connection")
          (({ loggedInWorld 1 with faults := [some (.other "driver: bad connection")] }
            : World).called (.UsersExists 1)) ∧
    sampleApp.isAuthenticated (sampleRequest "GET" "/" []) = false :=
  ⟨(authenticate_marks_request sampleApp pageHandler (sampleRequest "GET" "/" [])
      sampleWorld).1 (by decide),
   ((authenticate_marks_request sampleApp pageHandler (sampleRequest "GET" "/" [])
      (loggedInWorld 1)).2.1 (by decide) (by decide)).1,
   (authenticate_marks_request sampleApp pageHandler (sampleRequest "GET" "/" [])
      (loggedInWorld 99)).2.2.1 (by decide) (by decide),
   (authenticate_marks_request sampleApp pageHandler (sampleRequest "GET" "/" [])
      { loggedInWorld 1 with faults := [some (.other "driver: bad connection")] }).2.2.2.1
      (by decide) false (.other "driver: bad connection") (by decide),
   (authenticate_marks_request sampleApp pageHandler (sampleRequest "GET" "/" [])
      sampleWorld).2.2.2.2.1 (by decide)⟩

/-! ## Login -/

theorem healthy_succ (s : World) (n : Nat) (h : s.healthy (n + 1)) :
    s.nextFault = none ∧ ∀ s' : World, s'.faults = s.faults.tail → s'.healthy n := by
  unfold World.healthy World.nextFault at *
  cases hf : s.faults with
  | nil =>
    refine ⟨rfl, ?_⟩
    intro s' hs' f hmem
    rw [hs'] at hmem
    simp at hmem
  | cons f fs =>
    rw [hf] at h
    refine ⟨h f (by simp), ?_⟩
    intro s' hs' g hmem
    rw [hs'] at hmem
    exact h g (by simp [List.take_succ_cons]; exact Or.inr (by simpa using hmem))

theorem checkedLoginForm_Email (app : application) (req : Request) :
    (app.checkedLoginForm req).Email = formValue req "email" := rfl

theorem checkedLoginForm_Password (app : application) (req : Request) :
    (app.checkedLoginForm req).Password = formValue req "password" := rfl

theorem authenticate_ok_mem (bc : Bcrypt) (db : Database) (email password : String)
    (id : Int) (h : UserModel.Authenticate bc db none email password = (id, none)) :
    ∃ row ∈ db.users, row.ID = id := by
  unfold UserModel.Authenticate Database.userByEmail at h
  cases hFind : db.users.find? (fun u => u.Email == email) with
  | none => simp [hFind, errorsIs] at h
  | some row =>
    refine ⟨row, List.mem_of_find?_eq_some hFind, ?_⟩
    cases hAct : row.IsActive with
    | false => simp [hFind, hAct] at h
    | true =>
      cases hCmp : bc.CompareHashAndPassword row.HashedPassword password with
      | none => simpa [hFind, hAct, hCmp] using h
      | some err =>
        simp only [hFind, hAct, hCmp] at h
        by_cases hIs : errorsIs err .ErrMismatchedHashAndPassword = true <;>
          simp [hIs] at h

theorem get_ok_of_mem (db : Database) (id : Int) (h : ∃ row ∈ db.users, row.ID = id) :
    ∃ user, UserModel.Get db none id = .ok user := by
  obtain ⟨row, hRow, hID⟩ := h
  unfold UserModel.Get Database.userByID
  cases hFind : db.users.find? (fun u => u.ID == id) with
  | none =>
    rw [List.find?_eq_none] at hFind
    exact absurd (by simpa using hID) (hFind row hRow)
  | some found => exact ⟨_, rfl⟩

theorem usersAuthenticate_healthy (s : World) (bc : Bcrypt) (email password : String)
    (h : s.nextFault = none) :
    s.UsersAuthenticate bc email password
      = (UserModel.Authenticate bc s.db none email password,
          s.called (.UsersAuthenticate email)) := by
  simp [World.UsersAuthenticate, h]

theorem renewToken_healthy (s : World) (h : s.nextFault = none) :
    s.RenewToken = (none, s.renewed) := by
  simp [World.RenewToken, h]

theorem usersGet_healthy (s : World) (id : Int) (h : s.nextFault = none) :
    s.UsersGet id = (UserModel.Get s.db none id, s.called (.UsersGet id)) := by
  simp [World.UsersGet, h]

theorem login_steps
    (app : application) (req : Request) (s : World) (id : Int) (user : User)
    (hParse : req.parseFormErr = none)
    (hValid : (app.checkedLoginForm req).Validator.Valid = true)
    (hHealthy : s.healthy 3)
    (hAuth : UserModel.Authenticate app.bcrypt s.db none
      (formValue req "email") (formValue req "password") = (id, none))
    (hGet : UserModel.Get s.db none id = .ok user) :
    app.userLoginPost req s
      = (((s.called (.UsersAuthenticate (formValue req "email"))).renewed.Put
            "authenticatedUserId" (.int id)).called (.UsersGet id)).Redirect req
          (loginRedirectTarget user.Role) 303 := by
  obtain ⟨hf1, hrest1⟩ := healthy_succ s 2 hHealthy
  have hs1 := hrest1 (s.called (.UsersAuthenticate (formValue req "email"))) rfl
  obtain ⟨hf2, hrest2⟩ := healthy_succ _ 1 hs1
  have hs3 := hrest2
    ((s.called (.UsersAuthenticate (formValue req "email"))).renewed.Put
      "authenticatedUserId" (.int id)) rfl
  obtain ⟨hf3, -⟩ := healthy_succ _ 0 hs3
  have hGet3 : UserModel.Get
      ((s.called (.UsersAuthenticate (formValue req "email"))).renewed.Put
        "authenticatedUserId" (.int id)).db none id = .ok user := hGet
  unfold application.userLoginPost
  simp only [application.decodePostForm, hParse, hValid, checkedLoginForm_Email,
    checkedLoginForm_Password, usersAuthenticate_healthy _ _ _ _ hf1, hAuth,
    renewToken_healthy _ hf2, usersGet_healthy _ _ hf3, hGet3]
  simp only [loginRedirectTarget, RoleStudent, RoleLawyer, RoleRecruiter, beq_iff_eq,
    Bool.not_true, Bool.false_eq_true, if_false]
  split
  · rfl
  · split
    · rfl
    · split <;> rfl

/-! ## Frame lemmas -/

theorem renderer_frame (app : application) (page : String) (status : Nat)
    (data : templateData) (s : World) :
    (app.renderer page status data s).db = s.db ∧
    (app.renderer page status data s).session = s.session ∧
    (app.renderer page status data s).trace = s.trace ∧
    (app.renderer page status data s).faults = s.faults := by
  unfold application.renderer
  split
  · exact ⟨rfl, rfl, rfl, rfl⟩
  · split <;> exact ⟨rfl, rfl, rfl, rfl⟩

theorem renderer_ok (app : application) (page : String) (status : Nat)
    (data : templateData) (s : World) (ts : Template) (buf : String)
    (hCache : app.tempCache page = some ts) (hExec : ts data = .ok buf)
    (hFresh : s.w.status = none) :
    (app.renderer page status data s).w.status = some status ∧
    (app.renderer page status data s).w.body = s.w.body ++ buf ∧
    (app.renderer page status data s).errorLog = s.errorLog := by
  simp [application.renderer, hCache, hExec, ResponseWriter.Write,
    ResponseWriter.WriteHeader, hFresh]

theorem newTemplateData_frame (app : application) (req : Request) (s : World) :
    (app.newTemplateData req s).2.db = s.db ∧
    (app.newTemplateData req s).2.session = (s.session.PopString "flash").2 ∧
    (app.newTemplateData req s).2.w = s.w ∧
    (app.newTemplateData req s).2.errorLog = s.errorLog ∧
    (app.newTemplateData req s).2.trace
      = s.trace ++ (.PopString "flash" ::
          (if app.isAuthenticated req then
            [.UsersGet ((s.session.PopString "flash").2.GetInt "authenticatedUserId")]
           else [])) := by
  unfold application.newTemplateData
  simp only
  cases hAuth : app.isAuthenticated req with
  | false => simp [World.PopString]
  | true =>
    simp only [if_true]
    split <;> rename_i h <;>
      simp [World.UsersGet, World.called, World.PopString] at h ⊢ <;>
      simp [← h.2]

theorem popString_frame (sd : SessionData) (key other : String) (hne : other ≠ key) :
    (sd.PopString key).2.tokenGeneration = sd.tokenGeneration ∧
    (sd.PopString key).2.GetInt other = sd.GetInt other := by
  unfold SessionData.PopString
  split <;>
    simp [SessionData.Remove, SessionData.GetInt, lookup_filter_other key other hne]

theorem httpError_status (w : ResponseWriter) (error : String) (code : Nat)
    (hFresh : w.status = none) : (httpError w error code).status = some code := by
  unfold httpError
  exact status_Write_of_some _ _ _ (status_WriteHeader _ _ hFresh)

theorem checkField_false_ne_nil (v : validator.Validator) (key message : String) :
    (v.CheckField false key message).FieldErrors ≠ [] := by
  unfold validator.Validator.CheckField validator.Validator.AddFieldErrors
  simp only [Bool.not_false, if_true]
  split
  · rename_i h
    intro hNil
    rw [hNil] at h
    simp at h
  · simp

theorem checkField_ne_nil (v : validator.Validator) (ok : Bool) (key message : String)
    (h : v.FieldErrors ≠ []) : (v.CheckField ok key message).FieldErrors ≠ [] := by
  unfold validator.Validator.CheckField validator.Validator.AddFieldErrors
  split
  · split
    · exact h
    · simp
  · exact h

theorem checkField_nonField (v : validator.Validator) (ok : Bool) (key message : String) :
    (v.CheckField ok key message).NonFieldErrors = v.NonFieldErrors := by
  unfold validator.Validator.CheckField validator.Validator.AddFieldErrors
  split
  · split <;> rfl
  · rfl

theorem not_valid_of_fieldErrors (v : validator.Validator) (h : v.FieldErrors ≠ []) :
    v.Valid = false := by
  unfold validator.Validator.Valid
  cases hF : v.FieldErrors with
  | nil => exact absurd hF h
  | cons a l => rfl

theorem checkedSignupForm_invalid (app : application) (req : Request)
    (hInvalid : app.rules.NotBlank (formValue req "name") = false ∨
      app.rules.NotBlank (formValue req "email") = false ∨
      app.rules.MatchesEmailRX (formValue req "email") = false ∨
      app.rules.NotBlank (formValue req "password") = false ∨
      app.rules.MinChars (formValue req "password") 8 = false ∨
      ¬ (formValue req "role" = RoleStudent ∨ formValue req "role" = RoleLawyer ∨
          formValue req "role" = RoleRecruiter)) :
    (app.checkedSignupForm req).Validator.FieldErrors ≠ [] := by
  unfold application.checkedSignupForm
  simp only
  rcases hInvalid with h | h | h | h | h | h
  · rw [h]
    exact checkField_ne_nil _ _ _ _ (checkField_ne_nil _ _ _ _ (checkField_ne_nil _ _ _ _
      (checkField_ne_nil _ _ _ _ (checkField_ne_nil _ _ _ _
        (checkField_false_ne_nil _ _ _)))))
  · rw [h]
    exact checkField_ne_nil _ _ _ _ (checkField_ne_nil _ _ _ _ (checkField_ne_nil _ _ _ _
      (checkField_ne_nil _ _ _ _ (checkField_false_ne_nil _ _ _))))
  · rw [h]
    exact checkField_ne_nil _ _ _ _ (checkField_ne_nil _ _ _ _ (checkField_ne_nil _ _ _ _
      (checkField_false_ne_nil _ _ _)))
  · rw [h]
    exact checkField_ne_nil _ _ _ _ (checkField_ne_nil _ _ _ _
      (checkField_false_ne_nil _ _ _))
  · rw [h]
    exact checkField_ne_nil _ _ _ _ (checkField_false_ne_nil _ _ _)
  · have hRole : (formValue req "role" == RoleStudent || formValue req "role" == RoleLawyer ||
        formValue req "role" == RoleRecruiter) = false := by
      simp only [not_or] at h
      simp [h.1, h.2.1, h.2.2]
    rw [hRole]
    exact checkField_false_ne_nil _ _ _

/-- C8: on a login whose form decodes and passes validation, whose
`Authenticate` returns an ID with a nil error, and on which the three round
trips (authenticate, token renewal, user lookup) work, `Users.Get` finds the
user and the response is `http.Redirect` with status 303 to the target of the
user's role: "/student/dashboard", "/lawyer/dashboard", "/recruiter/dashboard",
or "/" for any other role; the four targets are pairwise distinct. -/
theorem login_redirect_by_role
    (app : application) (req : Request) (s : World) (id : Int)
    (hParse : req.parseFormErr = none)
    (hValid : (app.checkedLoginForm req).Validator.Valid = true)
    (hHealthy : s.healthy 3)
    (hAuth : UserModel.Authenticate app.bcrypt s.db none
      (formValue req "email") (formValue req "password") = (id, none)) :
    (∃ user, UserModel.Get s.db none id = .ok user ∧
      (app.userLoginPost req s).w
        = httpRedirect s.w req.Method (loginRedirectTarget user.Role) 303 ∧
      (s.w.status = none →
        (app.userLoginPost req s).w.status = some 303 ∧
        (app.userLoginPost req s).w.header.lookup "Location"
          = some (loginRedirectTarget user.Role))) ∧
    loginRedirectTarget RoleStudent = "/student/dashboard" ∧
    loginRedirectTarget RoleLawyer = "/lawyer/dashboard" ∧
    loginRedirectTarget RoleRecruiter = "/recruiter/dashboard" ∧
    (∀ role, role ≠ RoleStudent → role ≠ RoleLawyer → role ≠ RoleRecruiter →
      loginRedirectTarget role = "/") ∧
    ["/student/dashboard", "/lawyer/dashboard", "/recruiter/dashboard", "/"].Nodup := by
  refine ⟨?_, rfl, rfl, rfl, ?_, by decide⟩
  · obtain ⟨user, hGet⟩ := get_ok_of_mem s.db id (authenticate_ok_mem _ _ _ _ _ hAuth)
    have hOut : (app.userLoginPost req s).w
        = httpRedirect s.w req.Method (loginRedirectTarget user.Role) 303 := by
      rw [login_steps app req s id user hParse hValid hHealthy hAuth hGet]
      rfl
    refine ⟨user, hGet, hOut, ?_⟩
    intro hFresh
    rw [hOut]
    exact ⟨httpRedirect_status _ _ _ _ hFresh, httpRedirect_location _ _ _ _⟩
  · intro role h1 h2 h3
    simp only [RoleStudent, RoleLawyer, RoleRecruiter] at h1 h2 h3
    simp [loginRedirectTarget, h1, h2, h3]

theorem login_redirect_by_role_witness :
    (sampleApp.userLoginPost
      (sampleRequest "POST" "/user/login" [("email", "a@x.com"), ("password", "longenough1")])
      sampleWorld).w.status = some 303 ∧
    (sampleApp.userLoginPost
      (sampleRequest "POST" "/user/login" [("email", "a@x.com"), ("password", "longenough1")])
      sampleWorld).w.header.lookup "Location" = some "/student/dashboard" :=
  by
  obtain ⟨user, hGet, _, hStatus⟩ := (login_redirect_by_role sampleApp
      (sampleRequest "POST" "/user/login" [("email", "a@x.com"), ("password", "longenough1")])
      sampleWorld 1 rfl (by decide) (by simp [World.healthy, sampleWorld]) (by decide)).1
  have hUser : user = { ann with HashedPassword := [] } :=
    Except.ok.inj (hGet.symm.trans rfl)
  subst hUser
  exact hStatus rfl

theorem login_authenticate_failed
    (app : application) (req : Request) (s : World) (err : GoError)
    (hParse : req.parseFormErr = none)
    (hValid : (app.checkedLoginForm req).Validator.Valid = true)
    (hErr : (UserModel.Authenticate app.bcrypt s.db s.nextFault
      (formValue req "email") (formValue req "password")).2 = some err) :
    (errorsIs err .ErrInvalidCredentials = true →
      app.userLoginPost req s
        = app.renderer "login.tmpl.html" 422
            { (app.newTemplateData req
                (s.called (.UsersAuthenticate (formValue req "email")))).1 with
              Form := .login { app.checkedLoginForm req with
                Validator := (app.checkedLoginForm req).Validator.AddNonFieldError
                  "Email or password is incorrect" } }
            (app.newTemplateData req
              (s.called (.UsersAuthenticate (formValue req "email")))).2 ∧
      ((app.checkedLoginForm req).Validator.AddNonFieldError
          "Email or password is incorrect").NonFieldErrors
        = ["Email or password is incorrect"] ∧
      (∀ (ts : Template) (buf : String),
        app.tempCache "login.tmpl.html" = some ts →
        ts { (app.newTemplateData req
                (s.called (.UsersAuthenticate (formValue req "email")))).1 with
              Form := .login { app.checkedLoginForm req with
                Validator := (app.checkedLoginForm req).Validator.AddNonFieldError
                  "Email or password is incorrect" } } = .ok buf →
        s.w.status = none →
        (app.userLoginPost req s).w.status = some 422 ∧
        (app.userLoginPost req s).w.body = s.w.body ++ buf)) ∧
    (errorsIs err .ErrInvalidCredentials = false →
      app.userLoginPost req s
        = app.serverError err (s.called (.UsersAuthenticate (formValue req "email"))) ∧
      (s.w.status = none → (app.userLoginPost req s).w.status = some 500)) ∧
    errorsIs .ErrInvalidCredentials .ErrInvalidCredentials = true ∧
    errorsIs .ErrInactiveAccount .ErrInvalidCredentials = false ∧
    (app.userLoginPost req s).session.tokenGeneration = s.session.tokenGeneration ∧
    (app.userLoginPost req s).session.GetInt "authenticatedUserId"
      = s.session.GetInt "authenticatedUserId" ∧
    (∃ added, (app.userLoginPost req s).trace = s.trace ++ added ∧
      ∀ c ∈ added, (∀ result, c ≠ .RenewToken result) ∧ (∀ key val, c ≠ .Put key val)) := by
  have hInvalidCase : errorsIs err .ErrInvalidCredentials = true →
      app.userLoginPost req s
        = app.renderer "login.tmpl.html" 422
            { (app.newTemplateData req
                (s.called (.UsersAuthenticate (formValue req "email")))).1 with
              Form := .login { app.checkedLoginForm req with
                Validator := (app.checkedLoginForm req).Validator.AddNonFieldError
                  "Email or password is incorrect" } }
            (app.newTemplateData req
              (s.called (.UsersAuthenticate (formValue req "email")))).2 := by
    intro hIs
    unfold application.userLoginPost
    simp only [application.decodePostForm, hParse, hValid, checkedLoginForm_Email,
      checkedLoginForm_Password, World.UsersAuthenticate, hErr, hIs, Bool.not_true,
      Bool.false_eq_true, if_false, if_true]
  have hOtherCase : errorsIs err .ErrInvalidCredentials = false →
      app.userLoginPost req s
        = app.serverError err (s.called (.UsersAuthenticate (formValue req "email"))) := by
    intro hIs
    unfold application.userLoginPost
    simp only [application.decodePostForm, hParse, hValid, checkedLoginForm_Email,
      checkedLoginForm_Password, World.UsersAuthenticate, hErr, hIs, Bool.not_true,
      Bool.false_eq_true, if_false]
  have hNonField : (app.checkedLoginForm req).Validator.NonFieldErrors = [] := by
    unfold validator.Validator.Valid at hValid
    simp only [Bool.and_eq_true, List.isEmpty_iff] at hValid
    exact hValid.2
  refine ⟨?_, ?_, by decide, by decide, ?_, ?_, ?_⟩
  · intro hIs
    refine ⟨hInvalidCase hIs, ?_, ?_⟩
    · simp [validator.Validator.AddNonFieldError, hNonField]
    · intro ts buf hCache hExec hFresh
      rw [hInvalidCase hIs]
      have hW : (app.newTemplateData req
          (s.called (.UsersAuthenticate (formValue req "email")))).2.w.status = none := by
        rw [(newTemplateData_frame app req _).2.2.1]
        exact hFresh
      have h := renderer_ok app "login.tmpl.html" 422 _ _ ts buf hCache hExec hW
      refine ⟨h.1, ?_⟩
      rw [h.2.1, (newTemplateData_frame app req _).2.2.1]
      rfl
  · intro hIs
    refine ⟨hOtherCase hIs, ?_⟩
    intro hFresh
    rw [hOtherCase hIs]
    exact httpError_status _ _ _ hFresh
  · cases hIs : errorsIs err .ErrInvalidCredentials with
    | true =>
      rw [hInvalidCase hIs, (renderer_frame app _ _ _ _).2.1,
        (newTemplateData_frame app req _).2.1]
      exact (popString_frame _ "flash" "authenticatedUserId" (by decide)).1
    | false =>
      rw [hOtherCase hIs]
      rfl
  · cases hIs : errorsIs err .ErrInvalidCredentials with
    | true =>
      rw [hInvalidCase hIs, (renderer_frame app _ _ _ _).2.1,
        (newTemplateData_frame app req _).2.1]
      exact (popString_frame _ "flash" "authenticatedUserId" (by decide)).2
    | false =>
      rw [hOtherCase hIs]
      rfl
  · cases hIs : errorsIs err .ErrInvalidCredentials with
    | true =>
      rw [hInvalidCase hIs, (renderer_frame app _ _ _ _).2.2.1,
        (newTemplateData_frame app req _).2.2.2.2]
      refine ⟨.UsersAuthenticate (formValue req "email") :: .PopString "flash" ::
        (if app.isAuthenticated req then
          [.UsersGet (((s.called (.UsersAuthenticate (formValue req "email"))).session.PopString
            "flash").2.GetInt "authenticatedUserId")]
         else []), ?_, ?_⟩
      · simp [World.called]
      · intro c hc
        simp only [List.mem_cons] at hc
        rcases hc with hc | hc | hc
        · subst hc; exact ⟨fun _ h => (nomatch h), fun _ _ h => (nomatch h)⟩
        · subst hc; exact ⟨fun _ h => (nomatch h), fun _ _ h => (nomatch h)⟩
        · split at hc
          · simp only [List.mem_singleton] at hc
            subst hc; exact ⟨fun _ h => (nomatch h), fun _ _ h => (nomatch h)⟩
          · cases hc
    | false =>
      rw [hOtherCase hIs]
      refine ⟨[.UsersAuthenticate (formValue req "email")], rfl, ?_⟩
      intro c hc
      simp only [List.mem_singleton] at hc
      subst hc; exact ⟨fun _ h => (nomatch h), fun _ _ h => (nomatch h)⟩

theorem login_renew_failed
    (app : application) (req : Request) (s : World) (id : Int) (err : GoError)
    (hParse : req.parseFormErr = none)
    (hValid : (app.checkedLoginForm req).Validator.Valid = true)
    (hAuth : UserModel.Authenticate app.bcrypt s.db s.nextFault
      (formValue req "email") (formValue req "password") = (id, none))
    (hRenew : (s.called (.UsersAuthenticate (formValue req "email"))).nextFault = some err) :
    app.userLoginPost req s
      = app.serverError err
          ((s.called (.UsersAuthenticate (formValue req "email"))).called
            (.RenewToken (some err))) := by
  unfold application.userLoginPost
  simp only [application.decodePostForm, hParse, hValid, checkedLoginForm_Email,
    checkedLoginForm_Password, World.UsersAuthenticate, hAuth, World.RenewToken, hRenew,
    Bool.not_true, Bool.false_eq_true, if_false]

/-- C9: on a login whose form decodes and passes validation.  When
`Authenticate` returns the error `err`: if `err` is `ErrInvalidCredentials` the
handler renders "login.tmpl.html" with status 422 and a form whose only
non-field error is "Email or password is incorrect"; for every other error
(`ErrInactiveAccount` among them) the result is `serverError`, a 500; in both
cases the session keeps its token and its stored user ID, and neither
`RenewToken` nor `Put` is called.  When `Authenticate` succeeds and
`RenewToken` fails, the result is `serverError` too, the session is unchanged
and `Put` is not called. -/
theorem login_failure_mapping
    (app : application) (req : Request) (s : World)
    (hParse : req.parseFormErr = none)
    (hValid : (app.checkedLoginForm req).Validator.Valid = true) :
    (∀ err : GoError,
      (UserModel.Authenticate app.bcrypt s.db s.nextFault
        (formValue req "email") (formValue req "password")).2 = some err →
      (errorsIs err .ErrInvalidCredentials = true →
        app.userLoginPost req s
          = app.renderer "login.tmpl.html" 422
              { (app.newTemplateData req
                  (s.called (.UsersAuthenticate (formValue req "email")))).1 with
                Form := .login { app.checkedLoginForm req with
                  Validator := (app.checkedLoginForm req).Validator.AddNonFieldError
                    "Email or password is incorrect" } }
              (app.newTemplateData req
                (s.called (.UsersAuthenticate (formValue req "email")))).2 ∧
        ((app.checkedLoginForm req).Validator.AddNonFieldError
            "Email or password is incorrect").NonFieldErrors
          = ["Email or password is incorrect"] ∧
        (∀ (ts : Template) (buf : String),
          app.tempCache "login.tmpl.html" = some ts →
          ts { (app.newTemplateData req
                  (s.called (.UsersAuthenticate (formValue req "email")))).1 with
                Form := .login { app.checkedLoginForm req with
                  Validator := (app.checkedLoginForm req).Validator.AddNonFieldError
                    "Email or password is incorrect" } } = .ok buf →
          s.w.status = none →
          (app.userLoginPost req s).w.status = some 422 ∧
          (app.userLoginPost req s).w.body = s.w.body ++ buf)) ∧
      (errorsIs err .ErrInvalidCredentials = false →
        app.userLoginPost req s
          = app.serverError err (s.called (.UsersAuthenticate (formValue req "email"))) ∧
        (s.w.status = none → (app.userLoginPost req s).w.status = some 500)) ∧
      (app.userLoginPost req s).session.tokenGeneration = s.session.tokenGeneration ∧
      (app.userLoginPost req s).session.GetInt "authenticatedUserId"
        = s.session.GetInt "authenticatedUserId" ∧
      (∃ added, (app.userLoginPost req s).trace = s.trace ++ added ∧
        ∀ c ∈ added, (∀ result, c ≠ .RenewToken result) ∧ (∀ key val, c ≠ .Put key val))) ∧
    errorsIs .ErrInvalidCredentials .ErrInvalidCredentials = true ∧
    errorsIs .ErrInactiveAccount .ErrInvalidCredentials = false ∧
    (∀ (id : Int) (err : GoError),
      UserModel.Authenticate app.bcrypt s.db s.nextFault
        (formValue req "email") (formValue req "password") = (id, none) →
      (s.called (.UsersAuthenticate (formValue req "email"))).nextFault = some err →
      app.userLoginPost req s
        = app.serverError err
            ((s.called (.UsersAuthenticate (formValue req "email"))).called
              (.RenewToken (some err))) ∧
      (s.w.status = none → (app.userLoginPost req s).w.status = some 500) ∧
      (app.userLoginPost req s).session = s.session ∧
      (app.userLoginPost req s).trace
        = s.trace ++ [.UsersAuthenticate (formValue req "email"), .RenewToken (some err)]) := by
  refine ⟨?_, by decide, by decide, ?_⟩
  · intro err hErr
    have h := login_authenticate_failed app req s err hParse hValid hErr
    exact ⟨h.1, h.2.1, h.2.2.2.2.1, h.2.2.2.2.2.1, h.2.2.2.2.2.2⟩
  · intro id err hAuth hRenew
    have hOut := login_renew_failed app req s id err hParse hValid hAuth hRenew
    refine ⟨hOut, ?_, ?_, ?_⟩
    · intro hFresh
      rw [hOut]
      exact httpError_status _ _ _ hFresh
    · rw [hOut]
      rfl
    · rw [hOut]
      simp [application.serverError, World.called]

theorem login_failure_mapping_witness :
    (sampleApp.userLoginPost
      (sampleRequest "POST" "/user/login" [("email", "a@x.com"), ("password", "wrongpassword")])
      sampleWorld).w.status = some 422 ∧
    (sampleApp.userLoginPost
      (sampleRequest "POST" "/user/login" [("email", "a@x.com"), ("password", "wrongpassword")])
      sampleWorld).w.body = "login.tmpl.html:" ∧
    (sampleApp.userLoginPost
      (sampleRequest "POST" "/user/login" [("email", "b@x.com"), ("password", "hunter2hunter2")])
      sampleWorld).w.status = some 500 ∧
    (sampleApp.userLoginPost
      (sampleRequest "POST" "/user/login" [("email", "a@x.com"), ("password", "longenough1")])
      { sampleWorld with faults := [none, some (.other "scs: store unavailable")] }).session
      = sampleWorld.session :=
  ⟨((((login_failure_mapping sampleApp
      (sampleRequest "POST" "/user/login" [("email", "a@x.com"), ("password", "wrongpassword")])
      sampleWorld rfl (by decide)).1 .ErrInvalidCredentials (by decide)).1 (by decide)).2.2
        _ _ rfl rfl rfl).1,
   ((((login_failure_mapping sampleApp
      (sampleRequest "POST" "/user/login" [("email", "a@x.com"), ("password", "wrongpassword")])
      sampleWorld rfl (by decide)).1 .ErrInvalidCredentials (by decide)).1 (by decide)).2.2
        _ _ rfl rfl rfl).2,
   (((login_failure_mapping sampleApp
      (sampleRequest "POST" "/user/login" [("email", "b@x.com"), ("password", "hunter2hunter2")])
      sampleWorld rfl (by decide)).1 .ErrInactiveAccount (by decide)).2.1 (by decide)).2 rfl,
   ((login_failure_mapping sampleApp
      (sampleRequest "POST" "/user/login" [("email", "a@x.com"), ("password", "longenough1")])
      { sampleWorld with faults := [none, some (.other "scs: store unavailable")] }
      rfl (by decide)).2.2.2 1 (.other "scs: store unavailable") (by decide) (by decide)).2.2.1⟩

/-! ## Signup -/

/-- C10: on a signup whose form decodes and breaks a rule (name blank, email
blank or not matching the pattern, password blank or shorter than 8
characters, role outside student, lawyer, recruiter), the checked form is
invalid and carries a field-level error, the handler renders
"signup.tmpl.html" with status 422 and that form, the tables are unchanged and
`Users.Insert` is not called; when the template executes on a response not yet
started, the status is 422 and nothing is logged as a server error. -/
theorem signup_validation_failure
    (app : application) (req : Request) (s : World)
    (hParse : req.parseFormErr = none)
    (hInvalid : app.rules.NotBlank (formValue req "name") = false ∨
      app.rules.NotBlank (formValue req "email") = false ∨
      app.rules.MatchesEmailRX (formValue req "email") = false ∨
      app.rules.NotBlank (formValue req "password") = false ∨
      app.rules.MinChars (formValue req "password") 8 = false ∨
      ¬ (formValue req "role" = RoleStudent ∨ formValue req "role" = RoleLawyer ∨
          formValue req "role" = RoleRecruiter)) :
    (app.checkedSignupForm req).Validator.Valid = false ∧
    (app.checkedSignupForm req).Validator.FieldErrors ≠ [] ∧
    app.userSignupPost req s
      = app.renderer "signup.tmpl.html" 422
          { (app.newTemplateData req s).1 with Form := .signup (app.checkedSignupForm req) }
          (app.newTemplateData req s).2 ∧
    (app.userSignupPost req s).db = s.db ∧
    (∃ added, (app.userSignupPost req s).trace = s.trace ++ added ∧
      ∀ c ∈ added, ∀ name email role, c ≠ .UsersInsert name email role) ∧
    (∀ (ts : Template) (buf : String),
      app.tempCache "signup.tmpl.html" = some ts →
      ts { (app.newTemplateData req s).1 with
            Form := .signup (app.checkedSignupForm req) } = .ok buf →
      s.w.status = none →
      (app.userSignupPost req s).w.status = some 422 ∧
      (app.userSignupPost req s).w.body = s.w.body ++ buf ∧
      (app.userSignupPost req s).errorLog = s.errorLog) := by
  have hField := checkedSignupForm_invalid app req hInvalid
  have hNotValid := not_valid_of_fieldErrors _ hField
  have hOut : app.userSignupPost req s
      = app.renderer "signup.tmpl.html" 422
          { (app.newTemplateData req s).1 with Form := .signup (app.checkedSignupForm req) }
          (app.newTemplateData req s).2 := by
    unfold application.userSignupPost
    simp only [application.decodePostForm, hParse, hNotValid, Bool.not_false, if_true]
  refine ⟨hNotValid, hField, hOut, ?_, ?_, ?_⟩
  · rw [hOut, (renderer_frame app _ _ _ _).1, (newTemplateData_frame app req s).1]
  · rw [hOut, (renderer_frame app _ _ _ _).2.2.1, (newTemplateData_frame app req s).2.2.2.2]
    refine ⟨_, rfl, ?_⟩
    intro c hc name email role
    simp only [List.mem_cons] at hc
    rcases hc with hc | hc
    · subst hc; exact fun h => nomatch h
    · split at hc
      · simp only [List.mem_singleton] at hc
        subst hc; exact fun h => nomatch h
      · cases hc
  · intro ts buf hCache hExec hFresh
    rw [hOut]
    have hW : (app.newTemplateData req s).2.w.status = none := by
      rw [(newTemplateData_frame app req s).2.2.1]
      exact hFresh
    have h := renderer_ok app "signup.tmpl.html" 422 _ _ ts buf hCache hExec hW
    refine ⟨h.1, ?_, ?_⟩
    · rw [h.2.1, (newTemplateData_frame app req s).2.2.1]
    · rw [h.2.2, (newTemplateData_frame app req s).2.2.2.1]

theorem signup_validation_failure_witness :
    (sampleApp.userSignupPost
      (sampleRequest "POST" "/user/signup"
        [("name", "Ann"), ("email", "c@x.com"), ("password", "short"), ("role", "student")])
      sampleWorld).w.status = some 422 ∧
    (sampleApp.userSignupPost
      (sampleRequest "POST" "/user/signup"
        [("name", "Ann"), ("email", "c@x.com"), ("password", "short"), ("role", "student")])
      sampleWorld).db = sampleDB ∧
    (sampleApp.checkedSignupForm
      (sampleRequest "POST" "/user/signup"
        [("name", "Ann"), ("email", "c@x.com"), ("password", "short"), ("role", "student")])
      ).Validator.FieldErrors
      = [("password", "This field must be at least 8 characters long")] :=
  ⟨((signup_validation_failure sampleApp
      (sampleRequest "POST" "/user/signup"
        [("name", "Ann"), ("email", "c@x.com"), ("password", "short"), ("role", "student")])
      sampleWorld rfl (by decide)).2.2.2.2.2 _ _ rfl rfl rfl).1,
   (signup_validation_failure sampleApp
      (sampleRequest "POST" "/user/signup"
        [("name", "Ann"), ("email", "c@x.com"), ("password", "short"), ("role", "student")])
      sampleWorld rfl (by decide)).2.2.2.1,
   by decide⟩

/-! ## The two role gates compared -/

/-- C15: `requireRole role` and `requireAnyRole` with the allow-list `[role]`
are the same middleware: for every next handler, request and world they give
the same result (same lookup, same decision, same refusal, same failure).
With the empty allow-list, `requireAnyRole` refuses every user the lookup
resolves: the flash message is stored and the answer is the redirect to "/". -/
theorem requireRole_eq_requireAnyRole_singleton
    (app : application) (role : UserRole) (next : Handler) (req : Request) (s : World) :
    app.requireRole role next req s = app.requireAnyRole [role] next req s ∧
    (∀ user : User,
      UserModel.Get s.db s.nextFault (s.session.GetInt "authenticatedUserId") = .ok user →
      app.requireAnyRole [] next req s
        = ((s.called (.UsersGet (s.session.GetInt "authenticatedUserId"))).Put "flash"
            (.str "You don't have permission to access this page")).Redirect req "/" 303) := by
  constructor
  · unfold application.requireRole application.requireAnyRole
    simp only
    split
    · rfl
    · rename_i user s1 _
      by_cases h : user.Role = role
      · simp [hasRole, h]
      · simp [hasRole, h]
  · intro user hUser
    simp [application.requireAnyRole, World.UsersGet, hUser, hasRole]

theorem requireRole_eq_requireAnyRole_singleton_witness :
    sampleApp.requireRole RoleLawyer pageHandler
        (sampleRequest "GET" "/lawyer/dashboard" []) (loggedInWorld 2)
      = sampleApp.requireAnyRole [RoleLawyer] pageHandler
          (sampleRequest "GET" "/lawyer/dashboard" []) (loggedInWorld 2) ∧
    sampleApp.requireAnyRole [] pageHandler
        (sampleRequest "GET" "/lawyer/dashboard" []) (loggedInWorld 2)
      = (((loggedInWorld 2).called (.UsersGet 2)).Put "flash"
          (.str "You don't have permission to access this page")).Redirect
            (sampleRequest "GET" "/lawyer/dashboard" []) "/" 303 :=
  ⟨(requireRole_eq_requireAnyRole_singleton sampleApp RoleLawyer pageHandler
      (sampleRequest "GET" "/lawyer/dashboard" []) (loggedInWorld 2)).1,
   (requireRole_eq_requireAnyRole_singleton sampleApp RoleLawyer pageHandler
      (sampleRequest "GET" "/lawyer/dashboard" []) (loggedInWorld 2)).2
      { bob with HashedPassword := [] } rfl⟩

/-! ## Order of rotation and storing in login -/

theorem callsMade_of_trace (s out : World) (added : List Call)
    (h : out.trace = s.trace ++ added) : callsMade s out = added := by
  unfold callsMade
  rw [h, List.drop_left]

theorem putsFollowRenewal_of_no_put (key : String) (calls : List Call)
    (h : ∀ c ∈ calls, ∀ k v, c ≠ Call.Put k v) : putsFollowRenewal key calls := by
  intro before after val hEq
  exact absurd rfl (h (Call.Put key val) (by rw [hEq]; simp) key val)

theorem login_paths (app : application) (req : Request) (s : World) :
    (∃ added, (app.userLoginPost req s).trace = s.trace ++ added ∧
      ∀ c ∈ added, (∀ result, c ≠ Call.RenewToken result) ∧ (∀ k v, c ≠ Call.Put k v)) ∨
    (∃ email err, (app.userLoginPost req s).trace
        = s.trace ++ [Call.UsersAuthenticate email, Call.RenewToken (some err)] ∧
      (app.userLoginPost req s).session = s.session) ∨
    (∃ email id, (app.userLoginPost req s).trace
        = s.trace ++ [Call.UsersAuthenticate email, Call.RenewToken none,
            Call.Put "authenticatedUserId" (.int id), Call.UsersGet id]) := by
  cases hParse : req.parseFormErr with
  | some e =>
    left
    refine ⟨[], ?_, by simp⟩
    simp [application.userLoginPost, application.decodePostForm, hParse,
      application.clientError]
  | none =>
    cases hValid : (app.checkedLoginForm req).Validator.Valid with
    | false =>
      left
      have hOut : app.userLoginPost req s
          = app.renderer "login.tmpl.html" 422
              { (app.newTemplateData req s).1 with Form := .login (app.checkedLoginForm req) }
              (app.newTemplateData req s).2 := by
        unfold application.userLoginPost
        simp only [application.decodePostForm, hParse, hValid, Bool.not_false, if_true]
      rw [hOut, (renderer_frame app _ _ _ _).2.2.1, (newTemplateData_frame app req s).2.2.2.2]
      refine ⟨_, rfl, ?_⟩
      intro c hc
      simp only [List.mem_cons] at hc
      rcases hc with hc | hc
      · subst hc; exact ⟨fun _ h => (nomatch h), fun _ _ h => (nomatch h)⟩
      · split at hc
        · simp only [List.mem_singleton] at hc
          subst hc; exact ⟨fun _ h => (nomatch h), fun _ _ h => (nomatch h)⟩
        · cases hc
    | true =>
      cases hAuth : UserModel.Authenticate app.bcrypt s.db s.nextFault
          (formValue req "email") (formValue req "password") with
      | mk id authErr =>
        cases authErr with
        | some err =>
          left
          exact (login_authenticate_failed app req s err hParse hValid
            (by rw [hAuth])).2.2.2.2.2.2
        | none =>
          right
          cases hRenew : (s.called (.UsersAuthenticate (formValue req "email"))).nextFault with
          | some err =>
            left
            have hOut := login_renew_failed app req s id err hParse hValid hAuth hRenew
            refine ⟨formValue req "email", err, ?_, ?_⟩
            · rw [hOut]
              simp [application.serverError, World.called]
            · rw [hOut]
              rfl
          | none =>
            right
            refine ⟨formValue req "email", id, ?_⟩
            unfold application.userLoginPost
            simp only [application.decodePostForm, hParse, hValid, checkedLoginForm_Email,
              checkedLoginForm_Password, World.UsersAuthenticate, hAuth, World.RenewToken,
              hRenew, Bool.not_true, Bool.false_eq_true, if_false]
            split
            · rename_i err s4 hGet
              have hs4 := (Prod.mk.inj hGet).2
              rw [← hs4]
              simp [application.serverError, World.UsersGet, World.called, World.Put,
                World.renewed]
            · rename_i user s4 hGet
              have hs4 := (Prod.mk.inj hGet).2
              have hT : s4.trace = s.trace ++ [Call.UsersAuthenticate (formValue req "email"),
                  Call.RenewToken none, Call.Put "authenticatedUserId" (.int id),
                  Call.UsersGet id] := by
                rw [← hs4]
                simp [World.UsersGet, World.called, World.Put, World.renewed]
              split
              · exact hT
              · split
                · exact hT
                · split <;> exact hT

/-- C14: the calls `userLoginPost` makes, on every path: a `Put` of
"authenticatedUserId" only ever comes after a `RenewToken` that returned nil;
and when a `RenewToken` returned an error, no `Put` of "authenticatedUserId" is
made and the session is left as it was. -/
theorem login_put_follows_renewal (app : application) (req : Request) (s : World) :
    (app.userLoginPost req s).trace = s.trace ++ callsMade s (app.userLoginPost req s) ∧
    putsFollowRenewal "authenticatedUserId" (callsMade s (app.userLoginPost req s)) ∧
    (∀ err, Call.RenewToken (some err) ∈ callsMade s (app.userLoginPost req s) →
      (∀ val, Call.Put "authenticatedUserId" val ∉ callsMade s (app.userLoginPost req s)) ∧
      (app.userLoginPost req s).session = s.session) := by
  rcases login_paths app req s with ⟨added, hT, hNo⟩ | ⟨email, err, hT, hS⟩ | ⟨email, id, hT⟩
  · rw [callsMade_of_trace _ _ _ hT]
    refine ⟨hT, putsFollowRenewal_of_no_put _ _ (fun c hc => (hNo c hc).2), ?_⟩
    intro err hMem
    exact absurd rfl ((hNo _ hMem).1 (some err))
  · rw [callsMade_of_trace _ _ _ hT]
    refine ⟨hT, putsFollowRenewal_of_no_put _ _ ?_, ?_⟩
    · intro c hc k v
      simp only [List.mem_cons, List.mem_singleton, List.mem_nil_iff, or_false] at hc
      rcases hc with hc | hc <;> subst hc <;> exact fun h => (nomatch h)
    · intro err' _
      refine ⟨?_, hS⟩
      intro val hMem
      simp at hMem
  · rw [callsMade_of_trace _ _ _ hT]
    refine ⟨hT, ?_, ?_⟩
    · intro before after val hEq
      match before, hEq with
      | [], hEq => simp at hEq
      | [_], hEq => simp at hEq
      | x :: y :: rest, hEq =>
        simp only [List.cons_append, List.cons.injEq] at hEq
        rw [← hEq.2.1]
        simp
    · intro err hMem
      simp at hMem

theorem login_put_follows_renewal_witness :
    callsMade
        ({ sampleWorld with faults := [none, some (.other "scs: store unavailable")] })
        (sampleApp.userLoginPost
          (sampleRequest "POST" "/user/login"
            [("email", "a@x.com"), ("password", "longenough1")])
          { sampleWorld with faults := [none, some (.other "scs: store unavailable")] })
      = [Call.UsersAuthenticate "a@x.com",
         Call.RenewToken (some (.other "scs: store unavailable"))] ∧
    (sampleApp.userLoginPost
        (sampleRequest "POST" "/user/login" [("email", "a@x.com"), ("password", "longenough1")])
        { sampleWorld with faults := [none, some (.other "scs: store unavailable")] }).session
      = sampleWorld.session ∧
    callsMade sampleWorld
        (sampleApp.userLoginPost
          (sampleRequest "POST" "/user/login"
            [("email", "a@x.com"), ("password", "longenough1")]) sampleWorld)
      = [Call.UsersAuthenticate "a@x.com", Call.RenewToken none,
         Call.Put "authenticatedUserId" (.int 1), Call.UsersGet 1] :=
  ⟨by decide,
   ((login_put_follows_renewal sampleApp
      (sampleRequest "POST" "/user/login" [("email", "a@x.com"), ("password", "longenough1")])
      { sampleWorld with faults := [none, some (.other "scs: store unavailable")] }).2.2
        (.other "scs: store unavailable") (by decide)).2,
   by decide⟩

/-! ## Logout -/

theorem lookup_put_other (sd : SessionData) (key other : String) (val : SessionValue)
    (hne : other ≠ key) : (sd.Put key val).values.lookup other = sd.values.lookup other := by
  unfold SessionData.Put
  simp only
  have hb : (other == key) = false := by simpa using hne
  rw [List.lookup_append, lookup_filter_other key other hne]
  cases sd.values.lookup other with
  | none => simp [List.lookup_cons, hb]
  | some v => rfl

theorem lookup_remove (sd : SessionData) (key : String) :
    (sd.Remove key).values.lookup key = none := by
  unfold SessionData.Remove
  exact lookup_filter_ne key sd.values

theorem lookup_remove_other (sd : SessionData) (key other : String) (hne : other ≠ key) :
    (sd.Remove key).values.lookup other = sd.values.lookup other := by
  unfold SessionData.Remove
  exact lookup_filter_other key other hne sd.values

/-- C13 as amended: on a logout whose token rotation works, the token is
rotated, the stored user ID is removed, the flash message "You've been logged
out successfully!" is stored, every other value of the session is kept, and
the answer is the 303 redirect to "/"; when the rotation fails the session is
left as it was, stored user ID included, and the answer is a 500. -/
theorem logout_effects (app : application) (req : Request) (s : World) :
    (s.nextFault = none →
      app.userLogout req s
        = ((s.renewed.Remove "authenticatedUserId").Put "flash"
            (.str "You've been logged out successfully!")).Redirect req "/" 303 ∧
      (app.userLogout req s).session.tokenGeneration = s.session.tokenGeneration + 1 ∧
      (app.userLogout req s).session.values.lookup "authenticatedUserId" = none ∧
      (app.userLogout req s).session.GetInt "authenticatedUserId" = 0 ∧
      (app.userLogout req s).session.values.lookup "flash"
        = some (.str "You've been logged out successfully!") ∧
      (∀ key, key ≠ "authenticatedUserId" → key ≠ "flash" →
        (app.userLogout req s).session.values.lookup key = s.session.values.lookup key) ∧
      (s.w.status = none →
        (app.userLogout req s).w.status = some 303 ∧
        (app.userLogout req s).w.header.lookup "Location" = some "/")) ∧
    (∀ err, s.nextFault = some err →
      app.userLogout req s = app.serverError err (s.called (.RenewToken (some err))) ∧
      (app.userLogout req s).session = s.session ∧
      (s.w.status = none → (app.userLogout req s).w.status = some 500)) := by
  constructor
  · intro hOk
    have hOut : app.userLogout req s
        = ((s.renewed.Remove "authenticatedUserId").Put "flash"
            (.str "You've been logged out successfully!")).Redirect req "/" 303 := by
      simp [application.userLogout, World.RenewToken, hOk]
    have hID : (app.userLogout req s).session.values.lookup "authenticatedUserId" = none := by
      rw [hOut]
      show ((s.renewed.session.Remove "authenticatedUserId").Put "flash" _).values.lookup
        "authenticatedUserId" = none
      rw [lookup_put_other _ "flash" "authenticatedUserId" _ (by decide), lookup_remove]
    refine ⟨hOut, ?_, hID, ?_, ?_, ?_, ?_⟩
    · rw [hOut]; rfl
    · unfold SessionData.GetInt
      rw [hID]
    · rw [hOut]
      exact lookup_put _ _ _
    · intro key h1 h2
      rw [hOut]
      show ((s.renewed.session.Remove "authenticatedUserId").Put "flash" _).values.lookup key
        = s.session.values.lookup key
      rw [lookup_put_other _ "flash" key _ h2,
        lookup_remove_other _ "authenticatedUserId" key h1]
      rfl
    · intro hFresh
      rw [hOut]
      exact ⟨httpRedirect_status _ _ _ _ hFresh, httpRedirect_location _ _ _ _⟩
  · intro err hErr
    have hOut : app.userLogout req s
        = app.serverError err (s.called (.RenewToken (some err))) := by
      simp [application.userLogout, World.RenewToken, hErr]
    refine ⟨hOut, ?_, ?_⟩
    · rw [hOut]; rfl
    · intro hFresh
      rw [hOut]
      exact httpError_status _ _ _ hFresh

theorem logout_effects_witness :
    (sampleApp.userLogout (sampleRequest "POST" "/user/logout" []) (loggedInWorld 1)).session
      = { tokenGeneration := 2,
          values := [("flash", .str "You've been logged out successfully!")] } ∧
    (sampleApp.userLogout (sampleRequest "POST" "/user/logout" [])
        (loggedInWorld 1)).w.status = some 303 ∧
    (sampleApp.userLogout (sampleRequest "POST" "/user/logout" [])
        { loggedInWorld 1 with faults := [some (.other "scs: store unavailable")] }).session
      = (loggedInWorld 1).session ∧
    (sampleApp.userLogout (sampleRequest "POST" "/user/logout" [])
        { loggedInWorld 1 with faults := [some (.other "scs: store unavailable")] }).w.status
      = some 500 :=
  ⟨by decide,
   (((logout_effects sampleApp (sampleRequest "POST" "/user/logout" [])
      (loggedInWorld 1)).1 (by decide)).2.2.2.2.2.2 (by decide)).1,
   ((logout_effects sampleApp (sampleRequest "POST" "/user/logout" [])
      { loggedInWorld 1 with faults := [some (.other "scs: store unavailable")] }).2
        (.other "scs: store unavailable") (by decide)).2.1,
   ((logout_effects sampleApp (sampleRequest "POST" "/user/logout" [])
      { loggedInWorld 1 with faults := [some (.other "scs: store unavailable")] }).2
        (.other "scs: store unavailable") (by decide)).2.2 (by decide)⟩

/-- C13 as stated fails: the rotation works, yet the session after the logout is
not a new, empty session holding only the flash message, for it still holds
the value stored under "redirectPathAfterLogin" before the logout. -/
theorem logout_keeps_other_session_data :
    returningWorld.nextFault = none ∧
    (sampleApp.userLogout (sampleRequest "POST" "/user/logout" [])
        returningWorld).session.values
      = [("redirectPathAfterLogin", .str "/user/account"),
         ("flash", .str "You've been logged out successfully!")] ∧
    (sampleApp.userLogout (sampleRequest "POST" "/user/logout" [])
        returningWorld).session.values
      ≠ [("flash", .str "You've been logged out successfully!")] := by
  decide

/-! ## Session tokens -/

theorem base32Char_mem : ∀ q, q < 32 → base32Char q ∈ encodeStd.data := by
  decide

theorem base32Char_inj : ∀ q, q < 32 → ∀ q', q' < 32 → base32Char q = base32Char q' → q = q' := by
  decide

theorem exists_five_of_length (l : List Nat) (n : Nat) (h : l.length = n + 5) :
    ∃ a b c d e r, l = a :: b :: c :: d :: e :: r ∧ r.length = n := by
  rcases l with _ | ⟨a, _ | ⟨b, _ | ⟨c, _ | ⟨d, _ | ⟨e, r⟩⟩⟩⟩⟩ <;>
    simp only [List.length_cons, List.length_nil] at h
  · omega
  · omega
  · omega
  · omega
  · omega
  · exact ⟨a, b, c, d, e, r, rfl, by omega⟩

theorem exists_two_of_length (l : List Nat) (h : l.length = 2) : ∃ a b, l = [a, b] := by
  rcases l with _ | ⟨a, _ | ⟨b, _ | ⟨c, r⟩⟩⟩ <;>
    simp only [List.length_cons, List.length_nil] at h
  · omega
  · omega
  · exact ⟨a, b, rfl⟩
  · omega

theorem base32Encode_block (a b c d e : Nat) (r : List Nat) :
    base32Encode (a :: b :: c :: d :: e :: r)
      = [base32Char (a / 8), base32Char (a % 8 * 4 + b / 64), base32Char (b / 2 % 32),
         base32Char (b % 2 * 16 + c / 16), base32Char (c % 16 * 2 + d / 128),
         base32Char (d / 4 % 32), base32Char (d % 4 * 8 + e / 32), base32Char (e % 32)]
        ++ base32Encode r := by
  simp [base32Encode]

theorem base32Encode_shape (n : Nat) :
    ∀ l : List Nat, l.length = 5 * n + 2 → (∀ x ∈ l, x < 256) →
      (base32Encode l).length = 8 * n + 4 ∧ ∀ c ∈ base32Encode l, c ∈ encodeStd.data := by
  induction n with
  | zero =>
    intro l hLen hBytes
    obtain ⟨a, b, rfl⟩ := exists_two_of_length l (by omega)
    have ha : a < 256 := hBytes a (by simp)
    have hb : b < 256 := hBytes b (by simp)
    refine ⟨by simp [base32Encode], ?_⟩
    intro c hc
    simp only [base32Encode, List.mem_cons, List.mem_singleton, List.mem_nil_iff,
      or_false] at hc
    rcases hc with hc | hc | hc | hc <;> subst hc <;> apply base32Char_mem <;> omega
  | succ n ih =>
    intro l hLen hBytes
    obtain ⟨a, b, c, d, e, r, rfl, hr⟩ := exists_five_of_length l (5 * n + 2) (by omega)
    have ha : a < 256 := hBytes a (by simp)
    have hb : b < 256 := hBytes b (by simp)
    have hc : c < 256 := hBytes c (by simp)
    have hd : d < 256 := hBytes d (by simp)
    have he : e < 256 := hBytes e (by simp)
    have hRest := ih r hr (fun x hx => hBytes x (by simp [hx]))
    rw [base32Encode_block]
    refine ⟨by simp [hRest.1]; omega, ?_⟩
    intro ch hch
    rw [List.mem_append] at hch
    rcases hch with hch | hch
    · simp only [List.mem_cons, List.mem_singleton, List.mem_nil_iff, or_false] at hch
      rcases hch with h | h | h | h | h | h | h | h <;> subst h <;>
        apply base32Char_mem <;> omega
    · exact hRest.2 ch hch

theorem base32Encode_inj (n : Nat) :
    ∀ l l' : List Nat, l.length = 5 * n + 2 → l'.length = 5 * n + 2 →
      (∀ x ∈ l, x < 256) → (∀ x ∈ l', x < 256) →
      base32Encode l = base32Encode l' → l = l' := by
  induction n with
  | zero =>
    intro l l' hLen hLen' hBytes hBytes' hEq
    obtain ⟨a, b, rfl⟩ := exists_two_of_length l (by omega)
    obtain ⟨a', b', rfl⟩ := exists_two_of_length l' (by omega)
    have ha : a < 256 := hBytes a (by simp)
    have hb : b < 256 := hBytes b (by simp)
    have ha' : a' < 256 := hBytes' a' (by simp)
    have hb' : b' < 256 := hBytes' b' (by simp)
    simp only [base32Encode, List.cons.injEq, and_true] at hEq
    obtain ⟨h0, h1, h2, h3⟩ := hEq
    have e0 := base32Char_inj _ (by omega) _ (by omega) h0
    have e1 := base32Char_inj _ (by omega) _ (by omega) h1
    have e2 := base32Char_inj _ (by omega) _ (by omega) h2
    have e3 := base32Char_inj _ (by omega) _ (by omega) h3
    have hab : a = a' ∧ b = b' := by omega
    rw [hab.1, hab.2]
  | succ n ih =>
    intro l l' hLen hLen' hBytes hBytes' hEq
    obtain ⟨a, b, c, d, e, r, rfl, hr⟩ := exists_five_of_length l (5 * n + 2) (by omega)
    obtain ⟨a', b', c', d', e', r', rfl, hr'⟩ :=
      exists_five_of_length l' (5 * n + 2) (by omega)
    have ha : a < 256 := hBytes a (by simp)
    have hb : b < 256 := hBytes b (by simp)
    have hc : c < 256 := hBytes c (by simp)
    have hd : d < 256 := hBytes d (by simp)
    have he : e < 256 := hBytes e (by simp)
    have ha' : a' < 256 := hBytes' a' (by simp)
    have hb' : b' < 256 := hBytes' b' (by simp)
    have hc' : c' < 256 := hBytes' c' (by simp)
    have hd' : d' < 256 := hBytes' d' (by simp)
    have he' : e' < 256 := hBytes' e' (by simp)
    rw [base32Encode_block, base32Encode_block] at hEq
    simp only [List.cons_append, List.nil_append, List.cons.injEq] at hEq
    obtain ⟨h0, h1, h2, h3, h4, h5, h6, h7, hRest⟩ := hEq
    have e0 := base32Char_inj _ (by omega) _ (by omega) h0
    have e1 := base32Char_inj _ (by omega) _ (by omega) h1
    have e2 := base32Char_inj _ (by omega) _ (by omega) h2
    have e3 := base32Char_inj _ (by omega) _ (by omega) h3
    have e4 := base32Char_inj _ (by omega) _ (by omega) h4
    have e5 := base32Char_inj _ (by omega) _ (by omega) h5
    have e6 := base32Char_inj _ (by omega) _ (by omega) h6
    have e7 := base32Char_inj _ (by omega) _ (by omega) h7
    have hr'' := ih r r' hr hr' (fun x hx => hBytes x (by simp [hx]))
      (fun x hx => hBytes' x (by simp [hx])) hRest
    have hab : a = a' ∧ b = b' ∧ c = c' ∧ d = d' ∧ e = e' := by omega
    rw [hab.1, hab.2.1, hab.2.2.1, hab.2.2.2.1, hab.2.2.2.2, hr'']

/-! ## The chain around the router -/

theorem pathMatches_catchAll (pfx rest : List Char) (hStar : ∀ c ∈ pfx, c ≠ '*') :
    ∀ path : List Char, hasPrefix path pfx = true →
      pathMatches (pfx ++ '*' :: rest) path = true := by
  induction pfx with
  | nil => intro path _; simp [pathMatches]
  | cons c pfx ih =>
    intro path hPre
    cases path with
    | nil => simp [hasPrefix] at hPre
    | cons d path =>
      simp only [hasPrefix, Bool.and_eq_true, beq_iff_eq] at hPre
      have hc : c ≠ '*' := hStar c (by simp)
      have hRest := ih (fun x hx => hStar x (by simp [hx])) path hPre.2
      rw [List.cons_append]
      unfold pathMatches
      split
      · rename_i heq
        simp only [List.cons.injEq] at heq
        exact absurd heq.1 hc
      · rename_i heq _
        simp at heq
      · rename_i c' pattern d' path' _ hp hq
        simp only [List.cons.injEq] at hp hq
        obtain ⟨rfl, rfl⟩ := hp
        obtain ⟨rfl, rfl⟩ := hq
        simp only [Bool.and_eq_true, beq_iff_eq]
        exact ⟨hPre.1.symm, hRest⟩
      · rename_i h1 h2 h3
        exact absurd rfl (h3 c _ d path rfl)

theorem router_of_find (app : application) (pk : Collaborators) (req : Request) (r : Route)
    (h : (app.routeTable pk).find? (fun r => r.serves req) = some r) (s : World) :
    app.router pk req s = Chain.Then app pk r.chain r.final req s := by
  simp [application.router, h]

theorem find_static (app : application) (pk : Collaborators) (req : Request)
    (hMethod : req.Method = "GET")
    (hPath : hasPrefix req.Path.data "/static/".data = true) :
    (app.routeTable pk).find? (fun r => r.serves req)
      = some { method := "GET", path := "/static/*filepath", chain := alice.New [],
               final := httpStripPrefix "/static" pk.fileServer } := by
  have hMatch : pathMatches "/static/*filepath".data req.Path.data = true :=
    pathMatches_catchAll "/static/".data "filepath".data (by decide) req.Path.data hPath
  simp [application.routeTable, List.find?_cons, Route.serves, hMethod, hMatch]

theorem find_home (app : application) (pk : Collaborators) (req : Request)
    (hMethod : req.Method = "GET") (hPath : req.Path = "/") :
    (app.routeTable pk).find? (fun r => r.serves req)
      = some { method := "GET", path := "/", chain := dynamic, final := app.home } := by
  have h1 : pathMatches "/static/*filepath".data req.Path.data = false := by
    rw [hPath]; decide
  have h2 : pathMatches "/".data req.Path.data = true := by
    rw [hPath]; decide
  simp [application.routeTable, List.find?_cons, Route.serves, hMethod, h1, h2]

/-- C16: the handler `routes()` returns is the dynamic chain (recoverPanic,
logRequest, secureHeaders, LoadAndSave, noSurf, authenticate) around the
router; for GET "/" the router serves the same chain around `home`, and for
every registered route with a chain it serves that chain again around what
follows it, so the chain is applied twice before the route handler; for a GET
under "/static/" the router serves the file server with no chain, and for a
request no route serves it gives the router's own answer, so these requests
go through the chain once. -/
theorem dynamic_chain_applied_twice (app : application) (pk : Collaborators) :
    app.routes pk
      = app.recoverPanic (app.logRequest (secureHeaders (pk.LoadAndSave (noSurf pk
          (app.authenticate (app.router pk)))))) ∧
    (∀ (req : Request) (s : World), req.Method = "GET" → req.Path = "/" →
      app.router pk req s
        = app.recoverPanic (app.logRequest (secureHeaders (pk.LoadAndSave (noSurf pk
            (app.authenticate app.home))))) req s) ∧
    (∀ (req : Request) (r : Route) (s : World),
      (app.routeTable pk).find? (fun r => r.serves req) = some r →
      r.chain ≠ alice.New [] →
      r.chain.constructors = dynamic.constructors ++ r.chain.constructors.drop 6 ∧
      app.router pk req s
        = app.recoverPanic (app.logRequest (secureHeaders (pk.LoadAndSave (noSurf pk
            (app.authenticate
              (Chain.Then app pk { constructors := r.chain.constructors.drop 6 }
                r.final)))))) req s) ∧
    (∀ (req : Request) (s : World), req.Method = "GET" →
      hasPrefix req.Path.data "/static/".data = true →
      app.router pk req s = httpStripPrefix "/static" pk.fileServer req s) ∧
    (∀ (req : Request) (s : World),
      (∀ r ∈ app.routeTable pk, r.serves req = false) →
      app.router pk req s = pk.routerMiss app.routerWrap app.routerWrap req s) := by
  refine ⟨rfl, ?_, ?_, ?_, ?_⟩
  · intro req s hMethod hPath
    rw [router_of_find app pk req _ (find_home app pk req hMethod hPath)]
    rfl
  · intro req r s hFind hChain
    rw [router_of_find app pk req r hFind]
    have hr := List.mem_of_find?_eq_some hFind
    simp only [application.routeTable, List.mem_cons, List.mem_singleton, List.mem_nil_iff,
      or_false] at hr
    rcases hr with h | h | h | h | h | h | h | h | h | h | h | h | h | h | h <;> subst h
    · exact absurd rfl hChain
    all_goals exact ⟨rfl, rfl⟩
  · intro req s hMethod hPath
    rw [router_of_find app pk req _ (find_static app pk req hMethod hPath)]
    rfl
  · intro req s hNone
    have hFind : (app.routeTable pk).find? (fun r => r.serves req) = none := by
      rw [List.find?_eq_none]
      intro r hr
      simp [hNone r hr]
    simp [application.router, hFind]

theorem dynamic_chain_applied_twice_witness :
    (sampleApp.routes samplePackages (sampleRequest "GET" "/" []) sampleWorld).infoLog
      = ["127.0.0.1:50000 - HTTP/1.1 GET /", "127.0.0.1:50000 - HTTP/1.1 GET /"] ∧
    sampleApp.router samplePackages (sampleRequest "GET" "/" []) sampleWorld
      = sampleApp.recoverPanic (sampleApp.logRequest (secureHeaders
          (samplePackages.LoadAndSave (noSurf samplePackages
            (sampleApp.authenticate sampleApp.home)))))
          (sampleRequest "GET" "/" []) sampleWorld ∧
    (sampleApp.routes samplePackages (sampleRequest "GET" "/static/css/main.css" [])
        sampleWorld).infoLog
      = ["127.0.0.1:50000 - HTTP/1.1 GET /static/css/main.css"] ∧
    sampleApp.router samplePackages (sampleRequest "GET" "/static/css/main.css" [])
        sampleWorld
      = httpStripPrefix "/static" samplePackages.fileServer
          (sampleRequest "GET" "/static/css/main.css" []) sampleWorld ∧
    (sampleApp.routes samplePackages (sampleRequest "GET" "/nowhere" []) sampleWorld).infoLog
      = ["127.0.0.1:50000 - HTTP/1.1 GET /nowhere"] ∧
    sampleApp.router samplePackages (sampleRequest "GET" "/nowhere" []) sampleWorld
      = samplePackages.routerMiss sampleApp.routerWrap sampleApp.routerWrap
          (sampleRequest "GET" "/nowhere" []) sampleWorld :=
  ⟨by decide,
   (dynamic_chain_applied_twice sampleApp samplePackages).2.1
      (sampleRequest "GET" "/" []) sampleWorld rfl rfl,
   by decide,
   (dynamic_chain_applied_twice sampleApp samplePackages).2.2.2.1
      (sampleRequest "GET" "/static/css/main.css" []) sampleWorld rfl (by decide),
   by decide,
   (dynamic_chain_applied_twice sampleApp samplePackages).2.2.2.2
      (sampleRequest "GET" "/nowhere" []) sampleWorld (by decide)⟩

/-! ## Substrings and error chains -/

theorem hasPrefix_iff_isPrefix (sub : List Char) :
    ∀ s : List Char, hasPrefix s sub = true ↔ sub <+: s := by
  induction sub with
  | nil => intro s; cases s <;> simp [hasPrefix]
  | cons d sub ih =>
    intro s
    cases s with
    | nil => simp [hasPrefix]
    | cons c s =>
      simp only [hasPrefix, Bool.and_eq_true, beq_iff_eq, ih s, List.cons_prefix_cons]
      constructor
      · rintro ⟨h1, h2⟩; exact ⟨h1.symm, h2⟩
      · rintro ⟨h1, h2⟩; exact ⟨h1.symm, h2⟩

theorem containsChars_iff_isInfix (sub : List Char) :
    ∀ s : List Char, containsChars s sub = true ↔ sub <:+: s := by
  intro s
  induction s with
  | nil =>
    simp only [containsChars, hasPrefix_iff_isPrefix, List.prefix_nil, List.infix_nil]
  | cons c s ih =>
    simp only [containsChars, Bool.or_eq_true, hasPrefix_iff_isPrefix, ih,
      List.infix_cons_iff]

theorem stringsContains_iff (s sub : String) :
    stringsContains s sub = true ↔ sub.data <:+: s.data := by
  unfold stringsContains
  exact containsChars_iff_isInfix sub.data s.data

theorem errorsAsMySQLError_iff (err : GoError) (number : Nat) (message : String) :
    errorsAsMySQLError err = some (number, message) ↔ HoldsMySQLError err number message := by
  induction err with
  | MySQLError n m =>
    constructor
    · intro h
      simp only [errorsAsMySQLError, Option.some.injEq, Prod.mk.injEq] at h
      obtain ⟨rfl, rfl⟩ := h
      exact .here _ _
    · intro h
      cases h
      rfl
  | wrap text inner ih =>
    constructor
    · intro h
      exact .wrapped _ _ _ _ (ih.mp h)
    · intro h
      cases h with
      | wrapped _ _ _ _ h' => exact ih.mpr h'
  | _ =>
    constructor
    · intro h; simp [errorsAsMySQLError] at h
    · intro h; cases h

theorem generateFromPassword_short (bc : Bcrypt) (password : String) (cost : Nat)
    (hLen : password.utf8ByteSize ≤ 72) :
    bc.GenerateFromPassword password cost = bc.newFromPassword password cost := by
  unfold Bcrypt.GenerateFromPassword
  rw [if_neg (Nat.not_lt.mpr hLen)]

theorem insert_exec_failed (bc : Bcrypt) (db : Database) (lastIDFault : Option GoError)
    (name email password : String) (role : UserRole) (hash : List Nat)
    (hGen : bc.GenerateFromPassword password 12 = .ok hash) (err : GoError) :
    UserModel.Insert bc db (some err) lastIDFault name email password role
      = match errorsAsMySQLError err with
        | some (number, message) =>
          if number == 1062 && stringsContains message "email" then
            ((0, some .ErrDuplicateEmail), db)
          else ((0, some err), db)
        | none => ((0, some err), db) := by
  simp only [UserModel.Insert, hGen, Database.insertUser]

/-! ## Signup with a fresh email -/

/-- C2 as stated fails: the signup form of Cy passes every check of
`userSignupPost` and its email is in no row, yet its password of 73 letters
makes `Insert` return bcrypt's "password length exceeds 72 bytes" with ID 0 and
no row added, and the handler answers 500. -/
theorem insert_refuses_long_password :
    (sampleApp.checkedSignupForm longSignup).Validator.Valid = true ∧
    (sampleApp.checkedSignupForm longSignup).Password = longPassword ∧
    longPassword.length = 73 ∧
    (∀ u ∈ sampleDB.users, u.Email ≠ "c@x.com") ∧
    UserModel.Insert plainBcrypt sampleDB none none "Cy" "c@x.com" longPassword RoleStudent
      = ((0, some (.other "bcrypt: password length exceeds 72 bytes")), sampleDB) ∧
    (sampleApp.userSignupPost longSignup sampleWorld).w.status = some 500 ∧
    (sampleApp.userSignupPost longSignup sampleWorld).db = sampleDB := by
  refine ⟨by decide, by decide, by decide, by decide, by decide, by decide, by decide⟩

/-- C2 as amended: for a well-formed table, an email no row has yet and a
password of at most 72 bytes, when bcrypt hashes the password and accepts it
against that hash and no driver round trip fails, `Insert` returns a nil error
and an ID no stored row has, and `Authenticate` on the resulting table with
the same email and password returns that ID with a nil error.  This holds for
every name and role, the valid ones included. -/
theorem insert_then_authenticate
    (bc : Bcrypt) (db : Database) (name email password : String) (role : UserRole)
    (hash : List Nat)
    (hWF : db.WellFormed)
    (hFresh : ∀ u ∈ db.users, u.Email ≠ email)
    (hLen : password.utf8ByteSize ≤ 72)
    (hGen : bc.newFromPassword password 12 = .ok hash)
    (hCmp : bc.CompareHashAndPassword hash password = none) :
    (UserModel.Insert bc db none none name email password role).1.2 = none ∧
    (∀ u ∈ db.users,
      u.ID ≠ (UserModel.Insert bc db none none name email password role).1.1) ∧
    UserModel.Authenticate bc
        (UserModel.Insert bc db none none name email password role).2 none email password
      = ((UserModel.Insert bc db none none name email password role).1.1, none) := by
  have hG : bc.GenerateFromPassword password 12 = .ok hash := by
    rw [generateFromPassword_short bc password 12 hLen, hGen]
  have hIns : UserModel.Insert bc db none none name email password role =
      ((db.autoIncrement, none),
        { db with
          users := db.users ++
            [{ ID := db.autoIncrement, Name := name, Email := email,
               HashedPassword := hash, Role := role,
               CreatedAt := db.clock, UpdatedAt := db.clock,
               IsActive := true, EmailVerified := false }]
          autoIncrement := db.autoIncrement + 1 }) := by
    simp [UserModel.Insert, hG, insertUser_fresh db name email hash role hFresh]
  rw [hIns]
  refine ⟨rfl, ?_, ?_⟩
  · intro u hu
    exact ne_of_lt (hWF.1 u hu)
  · have hNone : db.users.find? (fun u => u.Email == email) = none :=
      find?_eq_none_of_forall_ne (fun u : User => u.Email) email _ hFresh
    simp [UserModel.Authenticate, Database.userByEmail, List.find?_append, hNone, hCmp]

theorem insert_then_authenticate_witness :
    (UserModel.Insert plainBcrypt sampleDB none none
      "Cy" "c@x.com" "longenough1" RoleStudent).1 = (3, none) ∧
    (∀ u ∈ sampleDB.users,
      u.ID ≠ (UserModel.Insert plainBcrypt sampleDB none none
        "Cy" "c@x.com" "longenough1" RoleStudent).1.1) ∧
    UserModel.Authenticate plainBcrypt
        (UserModel.Insert plainBcrypt sampleDB none none
          "Cy" "c@x.com" "longenough1" RoleStudent).2 none "c@x.com" "longenough1"
      = (3, none) :=
  have h := insert_then_authenticate plainBcrypt sampleDB "Cy" "c@x.com" "longenough1"
    RoleStudent ("longenough1".data.map Char.toNat) sampleDB_wellFormed (by decide)
    (by decide) rfl (by decide)
  ⟨by decide, h.2.1, h.2.2.trans (by decide)⟩

/-! ## Failed writes of `Insert` -/

/-- C5 as stated fails: Ann's email is in the table, so the write violates the
unique key on the email; the key is named `uq_login`, the driver's message
does not contain "email", and `Insert` returns the driver's error 1062 instead
of `ErrDuplicateEmail`. -/
theorem insert_duplicate_email_unrecognised :
    (∃ u ∈ renamedKeyDB.users, u.Email = "a@x.com") ∧
    (UserModel.Insert plainBcrypt renamedKeyDB none none
        "Al" "a@x.com" "longenough1" RoleStudent).1
      = (0, some (.MySQLError 1062 "Duplicate entry 'a@x.com' for key 'users.uq_login'")) ∧
    (UserModel.Insert plainBcrypt renamedKeyDB none none
        "Al" "a@x.com" "longenough1" RoleStudent).1.2 ≠ some .ErrDuplicateEmail := by
  refine ⟨by decide, by decide, by decide⟩

/-- C5 as amended: once the password is hashed, a write that fails with a
MySQL error 1062 whose message contains "email" makes `Insert` return
`(0, ErrDuplicateEmail)`; every other failure of the write (another number, a
1062 whose message does not contain "email", an error that holds no MySQL
error) is returned unchanged with ID 0; a write that meets a row with the same
email adds no row and returns `ErrDuplicateEmail` when the driver's message
for the violated key contains "email", the driver's error otherwise; and
whenever `Insert` returns an error the ID is 0. -/
theorem insert_failure_mapping
    (bc : Bcrypt) (db : Database) (lastIDFault : Option GoError)
    (name email password : String) (role : UserRole) (hash : List Nat)
    (hGen : bc.GenerateFromPassword password 12 = .ok hash) :
    (∀ err message, HoldsMySQLError err 1062 message → "email".data <:+: message.data →
      UserModel.Insert bc db (some err) lastIDFault name email password role
        = ((0, some .ErrDuplicateEmail), db)) ∧
    (∀ err,
      ¬ (∃ message, HoldsMySQLError err 1062 message ∧ "email".data <:+: message.data) →
      UserModel.Insert bc db (some err) lastIDFault name email password role
        = ((0, some err), db)) ∧
    ((∃ u ∈ db.users, u.Email = email) →
      (UserModel.Insert bc db none lastIDFault name email password role).2.users
          = db.users ∧
      ("email".data <:+: (duplicateEntryMessage email db.emailKey).data →
        (UserModel.Insert bc db none lastIDFault name email password role).1
          = (0, some .ErrDuplicateEmail)) ∧
      (¬ "email".data <:+: (duplicateEntryMessage email db.emailKey).data →
        (UserModel.Insert bc db none lastIDFault name email password role).1
          = (0, some (.MySQLError 1062 (duplicateEntryMessage email db.emailKey))))) ∧
    (∀ execFault,
      (UserModel.Insert bc db execFault lastIDFault name email password role).1.2 ≠ none →
      (UserModel.Insert bc db execFault lastIDFault name email password role).1.1 = 0) := by
  refine ⟨?_, ?_, ?_, ?_⟩
  · intro err message hHolds hMsg
    rw [insert_exec_failed bc db lastIDFault name email password role hash hGen err,
      (errorsAsMySQLError_iff err 1062 message).mpr hHolds]
    simp [(stringsContains_iff message "email").mpr hMsg]
  · intro err hNot
    rw [insert_exec_failed bc db lastIDFault name email password role hash hGen err]
    cases hAs : errorsAsMySQLError err with
    | none => rfl
    | some nm =>
      obtain ⟨number, message⟩ := nm
      have hHolds := (errorsAsMySQLError_iff err number message).mp hAs
      by_cases hNum : number = 1062
      · subst hNum
        have hMsg : stringsContains message "email" = false := by
          cases hC : stringsContains message "email" with
          | false => rfl
          | true => exact absurd ⟨message, hHolds, (stringsContains_iff _ _).mp hC⟩ hNot
        simp [hMsg]
      · simp [hNum]
  · intro hDup
    have hIns := insertUser_duplicate db name email hash role hDup
    refine ⟨?_, ?_, ?_⟩
    · simp only [UserModel.Insert, hGen, hIns, errorsAsMySQLError]
      split <;> rfl
    · intro hMsg
      simp [UserModel.Insert, hGen, hIns, errorsAsMySQLError,
        (stringsContains_iff _ "email").mpr hMsg]
    · intro hMsg
      have hC : stringsContains (duplicateEntryMessage email db.emailKey) "email" = false := by
        cases hC : stringsContains (duplicateEntryMessage email db.emailKey) "email" with
        | false => rfl
        | true => exact absurd ((stringsContains_iff _ _).mp hC) hMsg
      simp [UserModel.Insert, hGen, hIns, errorsAsMySQLError, hC]
  · intro execFault
    unfold UserModel.Insert
    simp only [hGen]
    split
    · split
      · split <;> simp
      · simp
    · split <;> simp

theorem insert_failure_mapping_witness :
    UserModel.Insert plainBcrypt sampleDB
        (some (.wrap "insert user"
          (.MySQLError 1062 "Duplicate entry 'a@x.com' for key 'users.email'"))) none
        "Al" "a@x.com" "longenough1" RoleStudent
      = ((0, some .ErrDuplicateEmail), sampleDB) ∧
    UserModel.Insert plainBcrypt sampleDB
        (some (.MySQLError 1062 "Duplicate entry '7' for key 'users.PRIMARY'")) none
        "Al" "c@x.com" "longenough1" RoleStudent
      = ((0, some (.MySQLError 1062 "Duplicate entry '7' for key 'users.PRIMARY'")),
          sampleDB) ∧
    UserModel.Insert plainBcrypt sampleDB (some (.MySQLError 1213 "Deadlock found")) none
        "Al" "c@x.com" "longenough1" RoleStudent
      = ((0, some (.MySQLError 1213 "Deadlock found")), sampleDB) ∧
    UserModel.Insert plainBcrypt sampleDB (some (.other "invalid connection")) none
        "Al" "c@x.com" "longenough1" RoleStudent
      = ((0, some (.other "invalid connection")), sampleDB) ∧
    ((UserModel.Insert plainBcrypt sampleDB none none
        "Al" "a@x.com" "longenough1" RoleStudent).1 = (0, some .ErrDuplicateEmail) ∧
      (UserModel.Insert plainBcrypt sampleDB none none
        "Al" "a@x.com" "longenough1" RoleStudent).2.users = sampleDB.users) :=
  have h := fun email => insert_failure_mapping plainBcrypt sampleDB none "Al" email
    "longenough1" RoleStudent ("longenough1".data.map Char.toNat) rfl
  ⟨(h "a@x.com").1 _ _ (.wrapped _ _ _ _ (.here _ _)) (by decide),
   (h "c@x.com").2.1 _ (by
      rintro ⟨message, hHolds, hMsg⟩
      cases hHolds
      revert hMsg
      decide),
   (h "c@x.com").2.1 _ (by
      rintro ⟨message, hHolds, _⟩
      cases hHolds),
   (h "c@x.com").2.1 _ (by
      rintro ⟨message, hHolds, _⟩
      cases hHolds),
   ((h "a@x.com").2.2.1 (by decide)).2.1 (by decide),
   ((h "a@x.com").2.2.1 (by decide)).1⟩

/-! ## Session tokens from the random source -/

theorem randRead_ok (rand : RandSource) (len : Nat) (hOk : rand.failure = none) :
    randRead rand len = .ok ((List.range len).map (fun i => rand.byte i % 256)) := by
  simp [randRead, hOk]

theorem randRead_bytes (rand : RandSource) (len : Nat) :
    ((List.range len).map (fun i => rand.byte i % 256)).length = len ∧
    ∀ x ∈ (List.range len).map (fun i => rand.byte i % 256), x < 256 := by
  refine ⟨by simp, ?_⟩
  intro x hx
  obtain ⟨i, _, rfl⟩ := List.mem_map.mp hx
  exact Nat.mod_lt _ (by decide)

/-- C12: when the read of the random source does not fail, `generateSessionToken`
returns, with a nil error, the unpadded base32 encoding of the 32 bytes
`rand.Read` put in its slice: 52 characters, each of the alphabet A-Z, 2-7;
two reads that differ in the 32 bytes give two different tokens; a
`SessionModel.Insert` that returns no error returns that token, and it does
return it when the write does not fail and no stored session has the token. -/
theorem session_token_is_base32
    (rand rand' : RandSource) (hOk : rand.failure = none) (hOk' : rand'.failure = none) :
    (∃ b, randRead rand 32 = .ok b ∧ b.length = 32 ∧ (∀ x ∈ b, x < 256) ∧
      generateSessionToken rand = (String.mk (base32Encode b), none)) ∧
    (generateSessionToken rand).1.length = 52 ∧
    (∀ c ∈ (generateSessionToken rand).1.data,
      c ∈ "ABCDEFGHIJKLMNOPQRSTUVWXYZ234567".data) ∧
    (randRead rand 32 ≠ randRead rand' 32 →
      (generateSessionToken rand).1 ≠ (generateSessionToken rand').1) ∧
    (∀ (db : Database) (now : Int) (execFault : Option GoError) (userID : Int),
      (SessionModel.Insert db rand now execFault userID).1.2 = none →
      (SessionModel.Insert db rand now execFault userID).1.1
        = (generateSessionToken rand).1) ∧
    (∀ (db : Database) (now : Int) (userID : Int),
      (∀ s ∈ db.sessions, s.Token ≠ (generateSessionToken rand).1) →
      (SessionModel.Insert db rand now none userID).1 = ((generateSessionToken rand).1, none)) := by
  have hRead := randRead_ok rand 32 hOk
  have hRead' := randRead_ok rand' 32 hOk'
  obtain ⟨hLen, hBytes⟩ := randRead_bytes rand 32
  obtain ⟨hLen', hBytes'⟩ := randRead_bytes rand' 32
  have hTok : generateSessionToken rand
      = (String.mk (base32Encode ((List.range 32).map (fun i => rand.byte i % 256))), none) := by
    simp only [generateSessionToken, hRead]
  have hTok' : generateSessionToken rand'
      = (String.mk (base32Encode ((List.range 32).map (fun i => rand'.byte i % 256))), none) := by
    simp only [generateSessionToken, hRead']
  have hShape := base32Encode_shape 6 _ (by omega) hBytes
  refine ⟨⟨_, hRead, hLen, hBytes, hTok⟩, ?_, ?_, ?_, ?_, ?_⟩
  · rw [hTok]
    show (base32Encode _).length = 52
    rw [hShape.1]
  · rw [hTok]
    exact hShape.2
  · intro hne hEq
    apply hne
    rw [hTok, hTok'] at hEq
    have hData := congrArg String.data hEq
    rw [hRead, hRead', base32Encode_inj 6 _ _ (by omega) (by omega) hBytes hBytes' hData]
  · intro db now execFault userID hNil
    unfold SessionModel.Insert at hNil ⊢
    simp only [hTok] at hNil ⊢
    cases execFault with
    | some e => simp at hNil
    | none =>
      by_cases hAny : (db.sessions.any fun s => s.Token ==
          String.mk (base32Encode ((List.range 32).map (fun i => rand.byte i % 256)))) = true
      · simp [hAny] at hNil
      · simp [hAny]
  · intro db now userID hFresh
    have hAny := any_eq_false_of_forall_ne (fun s : Session => s.Token) _ db.sessions hFresh
    rw [hTok] at hAny
    unfold SessionModel.Insert
    simp only [hTok]
    simp [hAny]

theorem session_token_is_base32_witness :
    (generateSessionToken countingSource).1
      = "AAAQEAYEAUDAOCAJBIFQYDIOB4IBCEQTCQKRMFYYDENBWHA5DYPQ" ∧
    (generateSessionToken countingSource).1.length = 52 ∧
    (generateSessionToken countingSource).1 ≠ (generateSessionToken onesSource).1 ∧
    (SessionModel.Insert sampleDB countingSource 0 none 1).1
      = ("AAAQEAYEAUDAOCAJBIFQYDIOB4IBCEQTCQKRMFYYDENBWHA5DYPQ", none) :=
  have h := session_token_is_base32 countingSource onesSource rfl rfl
  ⟨by decide, h.2.1,
   h.2.2.2.1 (by
      intro hEq
      have hList : (List.range 32).map (fun i => countingSource.byte i % 256)
          = (List.range 32).map (fun i => onesSource.byte i % 256) := Except.ok.inj hEq
      revert hList
      decide),
   (h.2.2.2.2.2 sampleDB 0 1 (by decide)).trans (by decide)⟩

/-! ## The order in which the middleware is entered -/

/-- C11: `alice` runs the first constructor of a chain outermost, so the chain
`standard` of `routes()` enters panic recovery first, then logging, then the
security headers, and the rest of a chain follows in the order it was
appended; nesting the three in the described order (security headers, logging,
panic recovery) enters them the other way round.  A GET of the student
dashboard by Ann, who is logged in, enters panic recovery, logging, security
headers, session load and CSRF check, then `authenticate` asks whether user 1
exists; the router's chain repeats these six steps, enters the authentication
requirement, and the role requirement fetches user 1 before the handler runs. -/
theorem middleware_entry_order :
    (∀ (app : application) (pk : Collaborators) (h : Handler),
      Chain.Then app pk standard h = app.recoverPanic (app.logRequest (secureHeaders h))) ∧
    (∀ (app : application) (pk : Collaborators) (req : Request) (s : World),
      (Chain.Then app pk standard (fun _ out => out) req s).trace
        = s.trace ++
          [.Entered "recoverPanic", .Entered "logRequest", .Entered "secureHeaders"]) ∧
    (∀ (app : application) (req : Request) (s : World),
      (secureHeaders (app.logRequest (app.recoverPanic (fun _ out => out))) req s).trace
        = s.trace ++
          [.Entered "secureHeaders", .Entered "logRequest", .Entered "recoverPanic"]) ∧
    (∀ (app : application) (pk : Collaborators) (h : Handler),
      Chain.Then app pk studentOnly h
        = app.recoverPanic (app.logRequest (secureHeaders (pk.LoadAndSave (noSurf pk
            (app.authenticate (app.requireAuthentication
              (app.requireRole RoleStudent h)))))))) ∧
    (sampleApp.routes samplePackages (sampleRequest "GET" "/student/dashboard" [])
        (loggedInWorld 1)).trace
      = [.Entered "recoverPanic", .Entered "logRequest", .Entered "secureHeaders",
         .Entered "LoadAndSave", .Entered "noSurf", .UsersExists 1,
         .Entered "recoverPanic", .Entered "logRequest", .Entered "secureHeaders",
         .Entered "LoadAndSave", .Entered "noSurf", .UsersExists 1,
         .Entered "requireAuthentication", .UsersGet 1,
         .PopString "flash", .UsersGet 1] := by
  refine ⟨fun _ _ _ => rfl, ?_, ?_, fun _ _ _ => rfl, by decide⟩
  · intro app pk req s
    show (app.recoverPanic (app.logRequest (secureHeaders (fun _ out => out))) req s).trace = _
    simp only [application.recoverPanic, application.logRequest, secureHeaders, World.entered]
    split <;> simp [application.serverError]
  · intro app req s
    simp only [application.recoverPanic, application.logRequest, secureHeaders, World.entered]
    split <;> simp [application.serverError]

end Lawbook
